import Mathlib

/-!
Shallow embedding of the Commvault cloud-sizing scripts (OCI variants):
`src/OCI/oci_cs.py` (per-compartment summaries) and
`src/OCI/CVOracleCloudSizingScript.py` (per-region summaries).

External API results (region subscriptions, bucket listings, bucket stats,
volume attachments, kubectl output, ...) are modelled as input data, with
`Option` encoding a call that raises.  Python floats are modelled as `ℚ`;
the Python builtin `round(x, 2)` (round half to even) is `pyround2`.
Namespace `Oci` holds the `oci_cs.py` variant, namespace `CV` the
`CVOracleCloudSizingScript.py` variant.
-/

/-- Floor of a rational. -/
def qfloor (q : ℚ) : ℤ := ⌊q⌋

/-- Round half to even, as the Python builtin `round` does. -/
def rhe (q : ℚ) : ℤ :=
  let f := qfloor q
  let r := q - (f : ℚ)
  if r < 1/2 then f
  else if 1/2 < r then f + 1
  else if f % 2 = 0 then f else f + 1

/-- The Python expression `round(x, 2)`. -/
def pyround2 (q : ℚ) : ℚ := (rhe (q * 100) : ℚ) / 100

/-- Modelled from the spec wording only: rounding half UP to 2 decimals
(the spec claims this is the rounding used; the code uses the Python
builtin `round`, i.e. `pyround2`). -/
def specRoundHalfUp2 (q : ℚ) : ℚ := (qfloor (q * 100 + 1/2) : ℚ) / 100

/-- A Python config dict (`oci.config.from_file` result), as a map. -/
def Config := String → Option String

/-- Assignment `config[k] = v` on a Python dict. -/
def cfgSet (c : Config) (k v : String) : Config :=
  fun k2 => if k2 = k then some v else c k2

/-- One spreadsheet cell value. -/
inductive Cell where
  | s (v : String)
  | n (v : ℕ)
  | q (v : ℚ)
deriving DecidableEq

/-- One spreadsheet row. -/
abbrev Row := List Cell

/-- An openpyxl workbook: named sheets, each a list of rows. -/
structure Workbook where
  sheets : List (String × List Row)
deriving DecidableEq

/- ----------------------------------------------------------------- -/
/- Shared input model: object storage                                 -/
/- ----------------------------------------------------------------- -/

/-- Result of `get_bucket(..., fields=[approximateSize, approximateCount])`. -/
structure BucketStats where
  storage_tier : String
  defined_tags : String
  freeform_tags : String
  approximate_size : Option ℚ
  approximate_count : ℕ
deriving DecidableEq

/-- One bucket from `list_buckets`; `stats = none` models a
`get_bucket` call that raises. -/
structure Bucket where
  name : String
  stats : Option BucketStats
deriving DecidableEq

/-- A detail record for one bucket (class `ObjectStorageInfo`,
identical in both variants). -/
structure ObjectStorageInfo where
  compartment_id : String
  nsName : String
  bucket_name : String
  region : String
  storage_tier : String
  object_count : ℕ
  sizeGB : ℚ
  sizeTB : ℚ
  defined_tags : String
  freeform_tags : String
deriving DecidableEq

/-- The body of the per-bucket loop up to the `except ... continue`:
`none` when the stats fetch raises (the bucket is skipped), otherwise
the populated detail record.  `sizeGB` and `sizeTB` follow
`round(size_in_bytes / (1024 ** 3), 2) if size_in_bytes else 0` and
`round(sizeGB / 1024, 2) if sizeGB else 0`. -/
def mkBucketRow (region ns comp : String) (b : Bucket) : Option ObjectStorageInfo :=
  match b.stats with
  | none => none
  | some st =>
    let gb : ℚ :=
      match st.approximate_size with
      | none => 0
      | some bytes => if bytes = 0 then 0 else pyround2 (bytes / 1024 ^ 3)
    some { compartment_id := comp
           nsName := ns
           bucket_name := b.name
           region := region
           storage_tier := st.storage_tier
           object_count := st.approximate_count
           sizeGB := gb
           sizeTB := if gb = 0 then 0 else pyround2 (gb / 1024)
           defined_tags := st.defined_tags
           freeform_tags := st.freeform_tags }

/-- Process-wide grand-total counters for the object-storage workload
(`total_buckets`, `total_storageGB`, `total_storageTB`). -/
structure OSTotals where
  buckets : ℕ
  gb : ℚ
  tb : ℚ
deriving DecidableEq

/-- Count / GB / TB aggregate of a list of detail records. -/
structure Agg3 where
  cnt : ℕ
  gb : ℚ
  tb : ℚ
deriving DecidableEq

def Agg3.zero : Agg3 := ⟨0, 0, 0⟩

def Agg3.add (a b : Agg3) : Agg3 := ⟨a.cnt + b.cnt, a.gb + b.gb, a.tb + b.tb⟩

/-- Aggregate of object-storage rows. -/
def osAgg (rows : List ObjectStorageInfo) : Agg3 :=
  ⟨rows.length, (rows.map ObjectStorageInfo.sizeGB).sum, (rows.map ObjectStorageInfo.sizeTB).sum⟩

def OSTotals.bump (t : OSTotals) (a : Agg3) : OSTotals :=
  ⟨t.buckets + a.cnt, t.gb + a.gb, t.tb + a.tb⟩

/- ----------------------------------------------------------------- -/
/- Shared input model: compute instances                              -/
/- ----------------------------------------------------------------- -/

/-- One volume lookup: `none` models a `get_boot_volume` / `get_volume`
call that raises; otherwise `(display_name, size_in_gbs)`. -/
abbrev VolFetch := Option (String × ℚ)

/-- One instance from `list_instances`, together with the results the
secondary volume lookups would return for it.  The outer `Option` on an
attachment list models the `list_*_attachments` call raising. -/
structure RawInstance where
  instId : String
  displayName : String
  availabilityDomain : String
  shape : String
  lifecycleState : String
  definedTags : String
  freeformTags : String
  bootAttach : Option (List VolFetch)
  blockAttach : Option (List VolFetch)
deriving DecidableEq

/-- Process-wide grand totals for the instances workload
(`total_instances`, `total_instance_sizeGB`, `total_instance_sizeTB`). -/
structure InstTotals where
  instances : ℕ
  gb : ℚ
  tb : ℚ
deriving DecidableEq

def InstTotals.bump (t : InstTotals) (a : Agg3) : InstTotals :=
  ⟨t.instances + a.cnt, t.gb + a.gb, t.tb + a.tb⟩

namespace Oci

/-- `get_boot_volume_size` of oci_cs.py: every failure path returns 0. -/
def get_boot_volume_size (bootAttach : Option (List VolFetch)) : ℚ :=
  match bootAttach with
  | none => 0
  | some [] => 0
  | some (v :: _) =>
    match v with
    | none => 0
    | some (_, sz) => sz

/-- `get_block_volume_count_and_size` of oci_cs.py: the count is the
number of attachments; a failed `get_volume` contributes 0 to the size. -/
def get_block_volume_count_and_size (blockAttach : Option (List VolFetch)) : ℕ × ℚ :=
  match blockAttach with
  | none => (0, 0)
  | some l =>
    (l.length,
     (l.map (fun v => match v with | none => 0 | some (_, sz) => sz)).sum)

/-- Detail record for one instance (class `InstanceInfo` of oci_cs.py). -/
structure InstanceInfo where
  compartment_id : String
  instance_id : String
  instance_name : String
  region : String
  availability_domain : String
  shape : String
  state : String
  number_of_volumes : ℕ
  sizeGB : ℚ
  sizeTB : ℚ
  defined_tags : String
  freeform_tags : String
deriving DecidableEq

/-- The per-instance body of `get_instance_info` of oci_cs.py (after the
TERMINATED filter). -/
def mkInstanceInfo (region comp : String) (i : RawInstance) : InstanceInfo :=
  let boot := get_boot_volume_size i.bootAttach
  let bk := get_block_volume_count_and_size i.blockAttach
  { compartment_id := comp
    instance_id := i.instId
    instance_name := i.displayName
    region := region
    availability_domain := i.availabilityDomain
    shape := i.shape
    state := i.lifecycleState
    number_of_volumes := (if boot > 0 then 1 else 0) + bk.1
    sizeGB := boot + bk.2
    sizeTB := pyround2 ((boot + bk.2) / 1024)
    defined_tags := i.definedTags
    freeform_tags := i.freeformTags }

/-- Per-compartment summary (class `InstanceSummary` of oci_cs.py). -/
structure InstanceSummary where
  region : String
  compartment_id : String
  instance_count : ℕ
  total_sizeGB : ℚ
  total_sizeTB : ℚ
deriving DecidableEq

def InstanceSummary.bump (s : InstanceSummary) (a : Agg3) : InstanceSummary :=
  { s with instance_count := s.instance_count + a.cnt
           total_sizeGB := s.total_sizeGB + a.gb
           total_sizeTB := s.total_sizeTB + a.tb }

/-- Per-compartment summary (class `ObjectStorageSummary` of oci_cs.py). -/
structure ObjectStorageSummary where
  region : String
  nsName : String
  compartment_id : String
  bucket_count : ℕ
  total_storage_GB : ℚ
  total_storage_TB : ℚ
deriving DecidableEq

def ObjectStorageSummary.bump (s : ObjectStorageSummary) (a : Agg3) : ObjectStorageSummary :=
  { s with bucket_count := s.bucket_count + a.cnt
           total_storage_GB := s.total_storage_GB + a.gb
           total_storage_TB := s.total_storage_TB + a.tb }

/-- The inner bucket loop of `get_object_storage_info` of oci_cs.py:
folds the buckets of one compartment into the compartment summary, the
accumulated detail list and the grand totals. -/
def osBucketLoop (region ns comp : String) :
    List Bucket → ObjectStorageSummary → List ObjectStorageInfo → OSTotals →
    ObjectStorageSummary × List ObjectStorageInfo × OSTotals
  | [], s, acc, t => (s, acc, t)
  | b :: rest, s, acc, t =>
    match mkBucketRow region ns comp b with
    | none => osBucketLoop region ns comp rest s acc t
    | some row =>
      osBucketLoop region ns comp rest
        { s with
          bucket_count := s.bucket_count + 1
          total_storage_GB := s.total_storage_GB + (if row.sizeGB = 0 then 0 else row.sizeGB)
          total_storage_TB := s.total_storage_TB + (if row.sizeTB = 0 then 0 else row.sizeTB) }
        (acc ++ [row])
        { t with
          buckets := t.buckets + 1
          gb := t.gb + (if row.sizeGB = 0 then 0 else row.sizeGB)
          tb := t.tb + (if row.sizeTB = 0 then 0 else row.sizeTB) }

/-- One scope (here: one compartment in one region) together with the
detail records flushed for it. -/
structure OSScope where
  summary : ObjectStorageSummary
  rows : List ObjectStorageInfo
deriving DecidableEq

/-- Input for one compartment: `none` models `list_buckets` raising. -/
structure OSCompData where
  compId : String
  bucketsRes : Option (List Bucket)
deriving DecidableEq

/-- Input for one region: `nsRes = none` models `get_namespace` raising. -/
structure OSRegionData where
  region : String
  nsRes : Option String
  comps : List OSCompData
deriving DecidableEq

/-- Summary-sheet header row of the object-storage workload of oci_cs.py. -/
def osSummaryHeader : Row :=
  ["Namespace", "Region", "Compartment ID", "Bucket Count",
   "Total Size (GB)", "Total Size (TB)"].map Cell.s

/-- Row appended by `dump_summary(filename, "object_storage", summary)`. -/
def osSummaryRow (s : ObjectStorageSummary) : Row :=
  [Cell.s s.nsName, Cell.s s.region, Cell.s s.compartment_id,
   Cell.n s.bucket_count, Cell.q s.total_storage_GB, Cell.q s.total_storage_TB]

/-- Row appended by `write_grand_total(filename, "object_storage")`. -/
def osGrandTotalRow (t : OSTotals) : Row :=
  [Cell.s "Grand Total", Cell.s "", Cell.n t.buckets, Cell.q t.gb, Cell.q t.tb]

/-- Running state of `get_object_storage_info` of oci_cs.py: the config
dict, the scopes flushed so far, the info-sheet rows, the summary-sheet
rows with their bolded row indices, and the grand totals. -/
structure OSRun where
  config : Config
  scopes : List OSScope
  infoRows : List ObjectStorageInfo
  sheetRows : List Row
  sheetBold : List ℕ
  totals : OSTotals

/-- The compartment loop of `get_object_storage_info` of oci_cs.py.
A failed `list_buckets` or an empty bucket list skips the compartment
(no summary row is emitted for it). -/
def osCompLoop (region ns : String) : List OSCompData → OSRun → OSRun
  | [], st => st
  | c :: rest, st =>
    match c.bucketsRes with
    | none => osCompLoop region ns rest st
    | some bs =>
      if bs.length = 0 then osCompLoop region ns rest st
      else
        let s0 : ObjectStorageSummary :=
          { region := region, nsName := ns, compartment_id := c.compId
            bucket_count := 0, total_storage_GB := 0, total_storage_TB := 0 }
        let r := osBucketLoop region ns c.compId bs s0 [] st.totals
        osCompLoop region ns rest
          { st with
            scopes := st.scopes ++ [⟨r.1, r.2.1⟩]
            infoRows := st.infoRows ++ r.2.1
            sheetRows := st.sheetRows ++ [osSummaryRow r.1]
            totals := r.2.2 }

/-- The region loop of `get_object_storage_info` of oci_cs.py: writes
`config["region"]` first; a failed `get_namespace` skips the region. -/
def osRegionLoop : List OSRegionData → OSRun → OSRun
  | [], st => st
  | r :: rest, st =>
    let st1 := { st with config := cfgSet st.config "region" r.region }
    match r.nsRes with
    | none => osRegionLoop rest st1
    | some ns => osRegionLoop rest (osCompLoop r.region ns r.comps st1)

/-- Initial state: fresh summary sheet (header only), zero scopes, the
given grand-total counters (0 at process start). -/
def osInitRun (cfg : Config) (t0 : OSTotals) : OSRun :=
  { config := cfg, scopes := [], infoRows := [],
    sheetRows := [osSummaryHeader], sheetBold := [], totals := t0 }

/-- `get_object_storage_info` of oci_cs.py, for an explicit region list:
runs the region loop, then `write_grand_total` appends the grand-total
row, then `format_workbook` bolds the header row (index 0). -/
def get_object_storage_info (cfg : Config) (rds : List OSRegionData) (t0 : OSTotals) : OSRun :=
  let st := osRegionLoop rds (osInitRun cfg t0)
  let st2 := { st with sheetRows := st.sheetRows ++ [osGrandTotalRow st.totals] }
  { st2 with sheetBold := st2.sheetBold ++ [0] }

end Oci

namespace Oci

/-- The inner instance loop of `get_instance_info` of oci_cs.py:
TERMINATED instances are skipped; every other instance becomes a detail
record and bumps the compartment summary and the grand totals. -/
def instLoop (region comp : String) :
    List RawInstance → InstanceSummary → List InstanceInfo → InstTotals →
    InstanceSummary × List InstanceInfo × InstTotals
  | [], s, acc, t => (s, acc, t)
  | i :: rest, s, acc, t =>
    if i.lifecycleState = "TERMINATED" then instLoop region comp rest s acc t
    else
      let row := mkInstanceInfo region comp i
      instLoop region comp rest
        { s with
          instance_count := s.instance_count + 1
          total_sizeGB := s.total_sizeGB + row.sizeGB
          total_sizeTB := s.total_sizeTB + row.sizeTB }
        (acc ++ [row])
        { t with
          instances := t.instances + 1
          gb := t.gb + row.sizeGB
          tb := t.tb + row.sizeTB }

/-- One instance scope (one compartment in one region). -/
structure InstScope where
  summary : InstanceSummary
  rows : List InstanceInfo
deriving DecidableEq

/-- Input for one compartment: `none` models `list_instances` raising.
Unlike the other workloads, `get_instance_info` wraps this call in no
try/except, so a raise propagates out of the whole function. -/
structure InstCompData where
  compId : String
  instancesRes : Option (List RawInstance)
deriving DecidableEq

structure InstRegionData where
  region : String
  comps : List InstCompData
deriving DecidableEq

/-- Running state of `get_instance_info` of oci_cs.py. -/
structure InstRun where
  config : Config
  scopes : List InstScope
  infoRows : List InstanceInfo
  totals : InstTotals

/-- The compartment loop of `get_instance_info` of oci_cs.py.  The
`list_instances` call is unprotected: a raise aborts the whole run
(`Except.error`).  An empty instance list skips the compartment. -/
def instCompLoop (region : String) : List InstCompData → InstRun → Except String InstRun
  | [], st => .ok st
  | c :: rest, st =>
    match c.instancesRes with
    | none => .error ("list_instances raised for compartment " ++ c.compId)
    | some insts =>
      if insts.length = 0 then instCompLoop region rest st
      else
        let s0 : InstanceSummary :=
          { region := region, compartment_id := c.compId
            instance_count := 0, total_sizeGB := 0, total_sizeTB := 0 }
        let r := instLoop region c.compId insts s0 [] st.totals
        instCompLoop region rest
          { st with
            scopes := st.scopes ++ [⟨r.1, r.2.1⟩]
            infoRows := st.infoRows ++ r.2.1
            totals := r.2.2 }

/-- The region loop of `get_instance_info` of oci_cs.py. -/
def instRegionLoop : List InstRegionData → InstRun → Except String InstRun
  | [], st => .ok st
  | r :: rest, st =>
    let st1 := { st with config := cfgSet st.config "region" r.region }
    match instCompLoop r.region r.comps st1 with
    | .error e => .error e
    | .ok st2 => instRegionLoop rest st2

def instInitRun (cfg : Config) (t0 : InstTotals) : InstRun :=
  { config := cfg, scopes := [], infoRows := [], totals := t0 }

/-- `get_instance_info` of oci_cs.py, for an explicit region list.  An
error from any `list_instances` call aborts the run before the grand
total is written. -/
def get_instance_info (cfg : Config) (rds : List InstRegionData) (t0 : InstTotals) :
    Except String InstRun :=
  instRegionLoop rds (instInitRun cfg t0)

/-- `get_sheet_info` of oci_cs.py (sheet names and header rows). -/
def get_sheet_info (workload : String) :
    Option (String × String × List String × List String) :=
  if workload = "instances" then
    some ("InstanceInfo", "InstanceSummary",
      ["Compartment ID", "Instance ID", "Instance Name", "Region",
       "Availability Domain", "Shape", "State", "Number of Volumes",
       "Size (GB)", "Size (TB)", "Defined Tags", "Freeform Tags"],
      ["Region", "Compartment ID", "Instance Count", "Total Size (GB)", "Total Size (TB)"])
  else if workload = "object_storage" then
    some ("ObjectStorageInfo", "ObjectStorageSummary",
      ["Namespace", "Compartment ID", "Bucket Name", "Region",
       "Storage Tier", "Object Count", "Size (GB)", "Size (TB)",
       "Defined Tags", "Freeform Tags"],
      ["Namespace", "Region", "Compartment ID", "Bucket Count", "Total Size (GB)", "Total Size (TB)"])
  else none

/-- `init_excel` of oci_cs.py: if the file does not exist, create both
sheets with their header rows; otherwise do nothing.  The `Except`
models the `ValueError` of `get_sheet_info` on an unsupported workload. -/
def init_excel (store : Option Workbook) (workload : String) :
    Except String (Option Workbook) :=
  match store with
  | some wb => .ok (some wb)
  | none =>
    match get_sheet_info workload with
    | none => .error ("Unsupported workload: " ++ workload)
    | some (infoSheet, summarySheet, infoHeaders, summaryHeaders) =>
      .ok (some ⟨[(infoSheet, [infoHeaders.map Cell.s]),
                  (summarySheet, [summaryHeaders.map Cell.s])]⟩)

end Oci

namespace CV

/-- Per-region summary (class `ObjectStorageSummary` of
CVOracleCloudSizingScript.py); its `namespace` attribute is never
assigned and stays `None`. -/
structure ObjectStorageSummary where
  region : String
  nsName : Option String
  bucket_count : ℕ
  total_storage_GB : ℚ
  total_storage_TB : ℚ
deriving DecidableEq

/-- The inner bucket loop of `get_object_storage_info` of
CVOracleCloudSizingScript.py: folds one compartment into the REGION
summary, the per-compartment detail list and the grand totals. -/
def osBucketLoop (region ns comp : String) :
    List Bucket → ObjectStorageSummary → List ObjectStorageInfo → OSTotals →
    ObjectStorageSummary × List ObjectStorageInfo × OSTotals
  | [], s, acc, t => (s, acc, t)
  | b :: rest, s, acc, t =>
    match mkBucketRow region ns comp b with
    | none => osBucketLoop region ns comp rest s acc t
    | some row =>
      osBucketLoop region ns comp rest
        { s with
          bucket_count := s.bucket_count + 1
          total_storage_GB := s.total_storage_GB + (if row.sizeGB = 0 then 0 else row.sizeGB)
          total_storage_TB := s.total_storage_TB + (if row.sizeTB = 0 then 0 else row.sizeTB) }
        (acc ++ [row])
        { t with
          buckets := t.buckets + 1
          gb := t.gb + (if row.sizeGB = 0 then 0 else row.sizeGB)
          tb := t.tb + (if row.sizeTB = 0 then 0 else row.sizeTB) }

/-- One scope (here: one region) with all region detail records. -/
structure OSScope where
  summary : ObjectStorageSummary
  rows : List ObjectStorageInfo
deriving DecidableEq

/-- The compartment loop of `get_object_storage_info` of
CVOracleCloudSizingScript.py: accumulates region summary, region rows
and totals; a failed `list_buckets` or an empty list skips the
compartment. -/
def osCompLoopCv (region ns : String) :
    List Oci.OSCompData → ObjectStorageSummary → List ObjectStorageInfo → OSTotals →
    ObjectStorageSummary × List ObjectStorageInfo × OSTotals
  | [], s, rows, t => (s, rows, t)
  | c :: rest, s, rows, t =>
    match c.bucketsRes with
    | none => osCompLoopCv region ns rest s rows t
    | some bs =>
      if bs.length = 0 then osCompLoopCv region ns rest s rows t
      else
        let r := osBucketLoop region ns c.compId bs s [] t
        osCompLoopCv region ns rest r.1 (rows ++ r.2.1) r.2.2

/-- Running state of `get_object_storage_info` of
CVOracleCloudSizingScript.py. -/
structure OSRun where
  config : Config
  scopes : List OSScope
  infoRows : List ObjectStorageInfo
  sheetRows : List Row
  sheetBold : List ℕ
  totals : OSTotals

/-- The region loop: `config["region"]` is set first; a region summary
is created before the `get_namespace` try, and on a namespace failure
the region is skipped (its summary is never appended). -/
def osRegionLoopCv : List Oci.OSRegionData → OSRun → OSRun
  | [], st => st
  | r :: rest, st =>
    let st1 := { st with config := cfgSet st.config "region" r.region }
    match r.nsRes with
    | none => osRegionLoopCv rest st1
    | some ns =>
      let s0 : ObjectStorageSummary :=
        { region := r.region, nsName := none, bucket_count := 0
          total_storage_GB := 0, total_storage_TB := 0 }
      let res := osCompLoopCv r.region ns r.comps s0 [] st1.totals
      osRegionLoopCv rest
        { st1 with
          scopes := st1.scopes ++ [⟨res.1, res.2.1⟩]
          infoRows := st1.infoRows ++ res.2.1
          totals := res.2.2 }

/-- Summary-sheet header of the object-storage workload (CV variant). -/
def osSummaryHeaderCv : Row :=
  ["Region", "Bucket Count", "Total Size (GB)", "Total Size (TB)"].map Cell.s

/-- Row appended for one region summary by `dump_summary` (CV variant). -/
def osSummaryRowCv (s : ObjectStorageSummary) : Row :=
  [Cell.s s.region, Cell.n s.bucket_count,
   Cell.q s.total_storage_GB, Cell.q s.total_storage_TB]

/-- Grand-total row of `write_grand_total` (CV variant). -/
def osGrandTotalRowCv (t : OSTotals) : Row :=
  [Cell.s "Total Buckets", Cell.n t.buckets, Cell.q t.gb, Cell.q t.tb]

def osInitRunCv (cfg : Config) (t0 : OSTotals) : OSRun :=
  { config := cfg, scopes := [], infoRows := [],
    sheetRows := [osSummaryHeaderCv], sheetBold := [], totals := t0 }

/-- `get_object_storage_info` of CVOracleCloudSizingScript.py: after the
region loop, `write_grand_total` appends the grand-total row and bolds
sheet row 2 (index 1), THEN `dump_summary` appends the region summary
rows, then `format_workbook` bolds the header row (index 0). -/
def get_object_storage_info (cfg : Config) (rds : List Oci.OSRegionData) (t0 : OSTotals) :
    OSRun :=
  let st := osRegionLoopCv rds (osInitRunCv cfg t0)
  let st2 := { st with
               sheetRows := st.sheetRows ++ [osGrandTotalRowCv st.totals]
               sheetBold := st.sheetBold ++ [1] }
  let st3 := { st2 with sheetRows := st2.sheetRows ++ st2.scopes.map (fun sc => osSummaryRowCv sc.summary) : OSRun }
  { st3 with sheetBold := st3.sheetBold ++ [0] }

/-- `get_boot_volume_info` of CVOracleCloudSizingScript.py: failure
paths return the default `{name: None, sizeGB: 0}`. -/
def get_boot_volume_info (bootAttach : Option (List VolFetch)) : Option String × ℚ :=
  match bootAttach with
  | none => (none, 0)
  | some [] => (none, 0)
  | some (v :: _) =>
    match v with
    | none => (none, 0)
    | some (nm, sz) => (some nm, sz)

/-- `get_block_volume_info` of CVOracleCloudSizingScript.py: only
successful `get_volume` lookups are kept (a failed lookup contributes
neither name nor count nor size). -/
def get_block_volume_info (blockAttach : Option (List VolFetch)) : List (String × ℚ) :=
  match blockAttach with
  | none => []
  | some l => l.filterMap id

/-- Detail record for one instance (class `InstanceInfo` of
CVOracleCloudSizingScript.py, which also records volume names). -/
structure InstanceInfo where
  compartment_id : String
  instance_id : String
  instance_name : String
  region : String
  availability_domain : String
  shape : String
  state : String
  number_of_volumes : ℕ
  sizeGB : ℚ
  sizeTB : ℚ
  boot_volume_name : Option String
  block_volume_names : List String
  defined_tags : String
  freeform_tags : String
deriving DecidableEq

/-- The per-instance body of `get_instance_info` of
CVOracleCloudSizingScript.py (after the TERMINATED filter). -/
def mkInstanceInfo (region comp : String) (i : RawInstance) : InstanceInfo :=
  let boot := get_boot_volume_info i.bootAttach
  let bks := get_block_volume_info i.blockAttach
  { compartment_id := comp
    instance_id := i.instId
    instance_name := i.displayName
    region := region
    availability_domain := i.availabilityDomain
    shape := i.shape
    state := i.lifecycleState
    number_of_volumes := (if boot.2 > 0 then 1 else 0) + bks.length
    sizeGB := boot.2 + (bks.map Prod.snd).sum
    sizeTB := pyround2 ((boot.2 + (bks.map Prod.snd).sum) / 1024)
    boot_volume_name := boot.1
    block_volume_names := bks.map Prod.fst
    defined_tags := i.definedTags
    freeform_tags := i.freeformTags }

end CV

namespace CV

/-- One persistent volume claim from the kubectl JSON: namespace,
`metadata.name` (the empty string models a falsy name), and the parsed
`spec.resources.requests.storage` in Gi when present. -/
structure Pvc where
  ns : String
  pvcName : String
  storageGi : Option ℤ
deriving DecidableEq

/-- One OKE cluster from `list_clusters`, with the results of the
external steps: `kubecfgGen` is whether `oci ce cluster
create-kubeconfig` succeeds (creating the kubeconfig file),
`pvcQuery` is the parsed `kubectl get pvc` output (`none`: the kubectl
call or the JSON parse raises), `nodeQuery` likewise for nodes. -/
structure ClusterData where
  clusterId : String
  clusterName : String
  kubernetesVersion : String
  lifecycleState : String
  kubecfgGen : Bool
  pvcQuery : Option (List Pvc)
  nodeQuery : Option (List String)
deriving DecidableEq

/-- Detail record for one cluster (class `OKEClusterInfo`). -/
structure OKEClusterInfo where
  region : String
  cluster_id : String
  cluster_name : String
  kubernetes_version : String
  node_count : ℕ
  node_names : List String
  pvc_count : ℕ
  pvc_names : List String
  total_pvc_size_gb : ℚ
  total_pvc_size_tb : ℚ
deriving DecidableEq

/-- Per-region summary (class `OKEClusterSummary`). -/
structure OKEClusterSummary where
  region : String
  cluster_count : ℕ
  total_node_count : ℕ
  total_pvc_count : ℕ
  total_pvc_size_gb : ℚ
  total_pvc_size_tb : ℚ
deriving DecidableEq

/-- Grand totals for the OKE workload. -/
structure OKETotals where
  clusters : ℕ
  nodes : ℕ
  pvcs : ℕ
  gb : ℚ
  tb : ℚ
deriving DecidableEq

/-- Count/node/pvc/GB/TB aggregate of a list of cluster records. -/
structure Agg5 where
  cnt : ℕ
  nodes : ℕ
  pvcs : ℕ
  gb : ℚ
  tb : ℚ
deriving DecidableEq

def okeAgg (rows : List OKEClusterInfo) : Agg5 :=
  ⟨rows.length,
   (rows.map OKEClusterInfo.node_count).sum,
   (rows.map OKEClusterInfo.pvc_count).sum,
   (rows.map OKEClusterInfo.total_pvc_size_gb).sum,
   (rows.map OKEClusterInfo.total_pvc_size_tb).sum⟩

def OKEClusterSummary.bump (s : OKEClusterSummary) (a : Agg5) : OKEClusterSummary :=
  { s with cluster_count := s.cluster_count + a.cnt
           total_node_count := s.total_node_count + a.nodes
           total_pvc_count := s.total_pvc_count + a.pvcs
           total_pvc_size_gb := s.total_pvc_size_gb + a.gb
           total_pvc_size_tb := s.total_pvc_size_tb + a.tb }

def OKETotals.bump (t : OKETotals) (a : Agg5) : OKETotals :=
  ⟨t.clusters + a.cnt, t.nodes + a.nodes, t.pvcs + a.pvcs, t.gb + a.gb, t.tb + a.tb⟩

/-- Path of the short-lived kubeconfig credential file for a cluster. -/
def kubecfgFile (clusterId : String) : String := "kubeconfig_" ++ clusterId

/-- The cluster inventory step: the `try` body of `get_oke_cluster_info`.
On a kubeconfig-generation failure, a kubectl failure, or a parse
failure, the record keeps its zero defaults; a node-query failure alone
keeps the PVC fields. -/
def processCluster (region : String) (c : ClusterData) : OKEClusterInfo :=
  let base : OKEClusterInfo :=
    { region := region, cluster_id := c.clusterId, cluster_name := c.clusterName
      kubernetes_version := c.kubernetesVersion
      node_count := 0, node_names := [], pvc_count := 0, pvc_names := []
      total_pvc_size_gb := 0, total_pvc_size_tb := 0 }
  if !c.kubecfgGen then base
  else
    match c.pvcQuery with
    | none => base
    | some pvcs =>
      let gb : ℚ := ((pvcs.filterMap Pvc.storageGi).map fun z => (z : ℚ)).sum
      let withPvc : OKEClusterInfo :=
        { base with
          pvc_count := (pvcs.filter fun p => p.pvcName ≠ "").length
          pvc_names := pvcs.map fun p => p.ns ++ "/" ++ p.pvcName
          total_pvc_size_gb := gb
          total_pvc_size_tb := pyround2 (gb / 1024) }
      match c.nodeQuery with
      | none => withPvc
      | some names => { withPvc with node_names := names, node_count := names.length }

/-- Effect of one cluster step on the set of files on disk: the
kubeconfig file is created when generation succeeds, and the `finally`
block removes it at the end of every path (a missing file only raises
`OSError`, which is swallowed). -/
def processClusterDisk (c : ClusterData) (disk : List String) : List String :=
  (if c.kubecfgGen then disk ++ [kubecfgFile c.clusterId] else disk).filter
    (fun p => p ≠ kubecfgFile c.clusterId)

/-- The per-cluster loop over one compartment: DELETED clusters are
skipped before any external step; every other cluster is inventoried,
bumps the region summary and the grand totals, and its kubeconfig file
is removed. -/
def okeClusterLoop (region : String) :
    List ClusterData → OKEClusterSummary → List OKEClusterInfo → OKETotals → List String →
    OKEClusterSummary × List OKEClusterInfo × OKETotals × List String
  | [], s, acc, t, disk => (s, acc, t, disk)
  | c :: rest, s, acc, t, disk =>
    if c.lifecycleState = "DELETED" then okeClusterLoop region rest s acc t disk
    else
      let info := processCluster region c
      let disk2 := processClusterDisk c disk
      okeClusterLoop region rest
        { s with
          cluster_count := s.cluster_count + 1
          total_node_count := s.total_node_count + info.node_count
          total_pvc_count := s.total_pvc_count + info.pvc_count
          total_pvc_size_gb := s.total_pvc_size_gb + info.total_pvc_size_gb
          total_pvc_size_tb := s.total_pvc_size_tb + info.total_pvc_size_tb }
        (acc ++ [info])
        { t with
          clusters := t.clusters + 1
          nodes := t.nodes + info.node_count
          pvcs := t.pvcs + info.pvc_count
          gb := t.gb + info.total_pvc_size_gb
          tb := t.tb + info.total_pvc_size_tb }
        disk2

/-- Input for one compartment: `none` models `list_clusters` raising
(caught: the compartment is skipped). -/
structure OKECompData where
  compId : String
  clustersRes : Option (List ClusterData)
deriving DecidableEq

structure OKERegionData where
  region : String
  comps : List OKECompData
deriving DecidableEq

/-- The compartment loop of `get_oke_cluster_info`: accumulates the
region summary, the region detail rows, the totals and the disk. -/
def okeCompLoop (region : String) :
    List OKECompData → OKEClusterSummary → List OKEClusterInfo → OKETotals → List String →
    OKEClusterSummary × List OKEClusterInfo × OKETotals × List String
  | [], s, rows, t, disk => (s, rows, t, disk)
  | c :: rest, s, rows, t, disk =>
    match c.clustersRes with
    | none => okeCompLoop region rest s rows t disk
    | some cs =>
      let r := okeClusterLoop region cs s [] t disk
      okeCompLoop region rest r.1 (rows ++ r.2.1) r.2.2.1 r.2.2.2

/-- One OKE scope (one region). -/
structure OKEScope where
  summary : OKEClusterSummary
  rows : List OKEClusterInfo
deriving DecidableEq

/-- Running state of `get_oke_cluster_info`. -/
structure OKERun where
  config : Config
  scopes : List OKEScope
  infoRows : List OKEClusterInfo
  totals : OKETotals
  disk : List String

/-- The region loop of `get_oke_cluster_info`: the region summary is
appended unconditionally after the compartments of the region. -/
def okeRegionLoop : List OKERegionData → OKERun → OKERun
  | [], st => st
  | r :: rest, st =>
    let st1 := { st with config := cfgSet st.config "region" r.region }
    let s0 : OKEClusterSummary :=
      { region := r.region, cluster_count := 0, total_node_count := 0
        total_pvc_count := 0, total_pvc_size_gb := 0, total_pvc_size_tb := 0 }
    let res := okeCompLoop r.region r.comps s0 [] st1.totals st1.disk
    okeRegionLoop rest
      { st1 with
        scopes := st1.scopes ++ [⟨res.1, res.2.1⟩]
        infoRows := st1.infoRows ++ res.2.1
        totals := res.2.2.1
        disk := res.2.2.2 }

def okeInitRun (cfg : Config) (t0 : OKETotals) (disk0 : List String) : OKERun :=
  { config := cfg, scopes := [], infoRows := [], totals := t0, disk := disk0 }

/-- `get_oke_cluster_info` of CVOracleCloudSizingScript.py, for an
explicit region list and an explicit initial disk state. -/
def get_oke_cluster_info (cfg : Config) (rds : List OKERegionData) (t0 : OKETotals)
    (disk0 : List String) : OKERun :=
  okeRegionLoop rds (okeInitRun cfg t0 disk0)

/-- All clusters the run actually inventories: successfully listed and
not DELETED. -/
def processedClusters (rds : List OKERegionData) : List ClusterData :=
  ((rds.flatMap fun r => r.comps.flatMap fun c => c.clustersRes.getD []).filter
    fun c => c.lifecycleState ≠ "DELETED")

/-- `get_sheet_info` of CVOracleCloudSizingScript.py. -/
def get_sheet_info (workload : String) :
    Option (String × String × List String × List String) :=
  if workload = "instances" then
    some ("Instance Info", "Instance Summary",
      ["Compartment ID", "Instance ID", "Instance Name", "Region",
       "Availability Domain", "Shape", "State", "Number of Volumes",
       "Size (GB)", "Size (TB)", "Boot Volume Name", "Block Volume Names",
       "Defined Tags", "Freeform Tags"],
      ["Region", "Instance Count", "Total Size (GB)", "Total Size (TB)"])
  else if workload = "object_storage" then
    some ("Object Storage Info", "Object Storage Summary",
      ["Namespace", "Compartment ID", "Bucket Name", "Region",
       "Storage Tier", "Object Count", "Size (GB)", "Size (TB)",
       "Defined Tags", "Freeform Tags"],
      ["Region", "Bucket Count", "Total Size (GB)", "Total Size (TB)"])
  else if workload = "db_systems" then
    some ("DB System Info", "DB System Summary",
      ["Compartment ID", "DB System ID", "Display Name", "Region",
       "Availability Domain", "Shape", "Lifecycle State", "Node Count",
       "DB Version", "Database Edition", "Data Storage Size (GB)",
       "Data Storage Size (TB)", "Defined Tags", "Freeform Tags"],
      ["Region", "DB System Count", "Total Storage (GB)", "Total Storage (TB)"])
  else if workload = "oke_clusters" then
    some ("OKE Cluster Info", "OKE Cluster Summary",
      ["Region", "Cluster ID", "Cluster Name", "Kubernetes Version",
       "Node Count", "PVC Count", "Total PVC Size (GB)", "Total PVC Size (TB)",
       "PVC Names", "Node Names"],
      ["Region", "Cluster Count", "Total Node Count",
       "Total PVC Count", "Total PVC Size (GB)", "Total PVC Size (TB)"])
  else none

/-- `init_excel` of CVOracleCloudSizingScript.py: same guard as the
oci_cs variant; this variant creates the summary sheet first. -/
def init_excel (store : Option Workbook) (workload : String) :
    Except String (Option Workbook) :=
  match store with
  | some wb => .ok (some wb)
  | none =>
    match get_sheet_info workload with
    | none => .error ("Unsupported workload: " ++ workload)
    | some (infoSheet, summarySheet, infoHeaders, summaryHeaders) =>
      .ok (some ⟨[(summarySheet, [summaryHeaders.map Cell.s]),
                  (infoSheet, [infoHeaders.map Cell.s])]⟩)

end CV

/- ----------------------------------------------------------------- -/
/- Derived notions used by the statements                             -/
/- ----------------------------------------------------------------- -/

/-- Aggregate of a single object-storage row. -/
def aggOneOS (r : ObjectStorageInfo) : Agg3 := ⟨1, r.sizeGB, r.sizeTB⟩

/-- The detail records a compartment bucket list yields (buckets whose
stats fetch fails are dropped by the loop). -/
def keptBuckets (region ns comp : String) (bs : List Bucket) : List ObjectStorageInfo :=
  bs.filterMap (mkBucketRow region ns comp)

namespace Oci

/-- Aggregate of instance rows. -/
def instAgg (rows : List InstanceInfo) : Agg3 :=
  ⟨rows.length, (rows.map InstanceInfo.sizeGB).sum, (rows.map InstanceInfo.sizeTB).sum⟩

def aggOneInst (r : InstanceInfo) : Agg3 := ⟨1, r.sizeGB, r.sizeTB⟩

def InstanceSummary.zeroOf (region comp : String) : InstanceSummary :=
  { region := region, compartment_id := comp
    instance_count := 0, total_sizeGB := 0, total_sizeTB := 0 }

def ObjectStorageSummary.zeroOf (region ns comp : String) : ObjectStorageSummary :=
  { region := region, nsName := ns, compartment_id := comp
    bucket_count := 0, total_storage_GB := 0, total_storage_TB := 0 }

/-- The detail records a compartment instance list yields: every
non-TERMINATED instance, whatever its volume lookups do. -/
def keptInstances (region comp : String) (insts : List RawInstance) : List InstanceInfo :=
  (insts.filter fun i => i.lifecycleState ≠ "TERMINATED").map (mkInstanceInfo region comp)

end Oci

namespace CV

def aggOneOke (r : OKEClusterInfo) : Agg5 :=
  ⟨1, r.node_count, r.pvc_count, r.total_pvc_size_gb, r.total_pvc_size_tb⟩

def Agg5.zero : Agg5 := ⟨0, 0, 0, 0, 0⟩

def Agg5.add (a b : Agg5) : Agg5 :=
  ⟨a.cnt + b.cnt, a.nodes + b.nodes, a.pvcs + b.pvcs, a.gb + b.gb, a.tb + b.tb⟩

def OKEClusterSummary.zeroOf (region : String) : OKEClusterSummary :=
  { region := region, cluster_count := 0, total_node_count := 0
    total_pvc_count := 0, total_pvc_size_gb := 0, total_pvc_size_tb := 0 }

/-- The cluster records one compartment listing yields. -/
def keptClusters (region : String) (cs : List ClusterData) : List OKEClusterInfo :=
  (cs.filter fun c => c.lifecycleState ≠ "DELETED").map (processCluster region)

def ObjectStorageSummary.bump (s : ObjectStorageSummary) (a : Agg3) : ObjectStorageSummary :=
  { s with bucket_count := s.bucket_count + a.cnt
           total_storage_GB := s.total_storage_GB + a.gb
           total_storage_TB := s.total_storage_TB + a.tb }

def ObjectStorageSummary.zeroOf (region : String) : ObjectStorageSummary :=
  { region := region, nsName := none, bucket_count := 0
    total_storage_GB := 0, total_storage_TB := 0 }

end CV

/- ----------------------------------------------------------------- -/
/- Concrete inputs used by counterexamples and witnesses              -/
/- ----------------------------------------------------------------- -/

/-- An empty config dict. -/
def cfg0 : Config := fun _ => none

/-- A config dict with a tenancy entry (to check frame preservation). -/
def cfg1 : Config := fun k => if k = "tenancy" then some "ocid1.tenancy.test" else none

/-- A bucket whose stats report exactly `gb` gibibytes. -/
def bucketOfGB (nm : String) (gb : ℚ) : Bucket :=
  ⟨nm, some ⟨"Standard", "{}", "{}", some (gb * 1024 ^ 3), 1⟩⟩

/-- A bucket whose `get_bucket` stats fetch raises. -/
def bucketFail (nm : String) : Bucket := ⟨nm, none⟩

/-- A healthy running instance with one boot volume of `gb` GB. -/
def instOfGB (nm : String) (gb : ℚ) : RawInstance :=
  { instId := "ocid1.instance." ++ nm, displayName := nm
    availabilityDomain := "AD-1", shape := "VM.Standard2.1"
    lifecycleState := "RUNNING", definedTags := "{}", freeformTags := "{}"
    bootAttach := some [some ("boot-" ++ nm, gb)], blockAttach := some [] }

/-- A running instance whose volume lookups all raise. -/
def instVolFail (nm : String) : RawInstance :=
  { instOfGB nm 0 with bootAttach := none, blockAttach := none }

/-- A TERMINATED instance. -/
def instTerminated (nm : String) : RawInstance :=
  { instOfGB nm 50 with lifecycleState := "TERMINATED" }

/-- Disk state after the per-cluster loop over one cluster list. -/
def okeDiskAfter : List CV.ClusterData → List String → List String
  | [], disk => disk
  | c :: rest, disk =>
    if c.lifecycleState = "DELETED" then okeDiskAfter rest disk
    else okeDiskAfter rest (CV.processClusterDisk c disk)

/-- Disk state after the compartment loop of one region. -/
def okeCompDiskAfter : List CV.OKECompData → List String → List String
  | [], disk => disk
  | c :: rest, disk =>
    match c.clustersRes with
    | none => okeCompDiskAfter rest disk
    | some cs => okeCompDiskAfter rest (okeDiskAfter cs disk)

/-- The detail records all compartments of one region yield in the CV
object-storage run. -/
def cvCompKept (region ns : String) : List Oci.OSCompData → List ObjectStorageInfo
  | [] => []
  | c :: rest =>
    match c.bucketsRes with
    | none => cvCompKept region ns rest
    | some bs =>
      if bs.length = 0 then cvCompKept region ns rest
      else keptBuckets region ns c.compId bs ++ cvCompKept region ns rest

/-- The cluster records all compartments of one region yield. -/
def okeCompKept (region : String) : List CV.OKECompData → List CV.OKEClusterInfo
  | [] => []
  | c :: rest =>
    match c.clustersRes with
    | none => okeCompKept region rest
    | some cs => CV.keptClusters region cs ++ okeCompKept region rest

/-- Reconciliation invariant of the oci_cs.py object-storage run state:
grand totals equal the initial totals plus the aggregate of all flushed
detail records, the detail table is exactly the concatenation of the
per-scope detail lists, and every flushed summary carries the count and
the metric sums of its own detail records. -/
def OSRunInv (t0 : OSTotals) (st : Oci.OSRun) : Prop :=
  st.totals = t0.bump (osAgg st.infoRows) ∧
  st.infoRows = (st.scopes.map Oci.OSScope.rows).flatten ∧
  ∀ sc ∈ st.scopes,
    sc.summary.bucket_count = sc.rows.length ∧
    sc.summary.total_storage_GB = (sc.rows.map ObjectStorageInfo.sizeGB).sum ∧
    sc.summary.total_storage_TB = (sc.rows.map ObjectStorageInfo.sizeTB).sum

/-- Same reconciliation invariant for the CV OKE run state, over the
five OKE metrics. -/
def OKERunInv (t0 : CV.OKETotals) (st : CV.OKERun) : Prop :=
  st.totals = t0.bump (CV.okeAgg st.infoRows) ∧
  st.infoRows = (st.scopes.map CV.OKEScope.rows).flatten ∧
  ∀ sc ∈ st.scopes,
    sc.summary.cluster_count = sc.rows.length ∧
    sc.summary.total_node_count = (sc.rows.map CV.OKEClusterInfo.node_count).sum ∧
    sc.summary.total_pvc_count = (sc.rows.map CV.OKEClusterInfo.pvc_count).sum ∧
    sc.summary.total_pvc_size_gb = (sc.rows.map CV.OKEClusterInfo.total_pvc_size_gb).sum ∧
    sc.summary.total_pvc_size_tb = (sc.rows.map CV.OKEClusterInfo.total_pvc_size_tb).sum

/- ----------------------------------------------------------------- -/
/- Lemmas                                                             -/
/- ----------------------------------------------------------------- -/

lemma pyround2_zero : pyround2 0 = 0 := by norm_num [pyround2, rhe, qfloor]

lemma ite_self_zero (x : ℚ) : (if x = 0 then (0 : ℚ) else x) = x := by
  by_cases h : x = 0 <;> simp [h]

lemma tb_of_gb (gb : ℚ) :
    (if gb = 0 then (0 : ℚ) else pyround2 (gb / 1024)) = pyround2 (gb / 1024) := by
  by_cases h : gb = 0 <;> simp [h, pyround2_zero]

/-- Every bucket detail record derives its TB field from its own GB
field as `round(GB / 1024, 2)`. -/
lemma mkBucketRow_sizeTB (region ns comp : String) (b : Bucket) (row : ObjectStorageInfo)
    (h : mkBucketRow region ns comp b = some row) :
    row.sizeTB = pyround2 (row.sizeGB / 1024) := by
  rcases b with ⟨nm, _ | st⟩
  · simp [mkBucketRow] at h
  · simp only [mkBucketRow, Option.some.injEq] at h
    subst h
    exact tb_of_gb _

lemma osAgg_nil : osAgg [] = Agg3.zero := rfl

lemma osAgg_cons (r : ObjectStorageInfo) (l : List ObjectStorageInfo) :
    osAgg (r :: l) = (aggOneOS r).add (osAgg l) := by
  simp [osAgg, aggOneOS, Agg3.add, Nat.add_comm]

lemma osSummary_bump_zero (s : Oci.ObjectStorageSummary) : s.bump Agg3.zero = s := by
  cases s; simp [Oci.ObjectStorageSummary.bump, Agg3.zero]

lemma osSummary_bump_bump (s : Oci.ObjectStorageSummary) (a b : Agg3) :
    (s.bump a).bump b = s.bump (a.add b) := by
  cases s; simp [Oci.ObjectStorageSummary.bump, Agg3.add, Nat.add_assoc, add_assoc]

lemma osTotals_bump_zero (t : OSTotals) : t.bump Agg3.zero = t := by
  cases t; simp [OSTotals.bump, Agg3.zero]

lemma osTotals_bump_bump (t : OSTotals) (a b : Agg3) :
    (t.bump a).bump b = t.bump (a.add b) := by
  cases t; simp [OSTotals.bump, Agg3.add, Nat.add_assoc, add_assoc]

lemma keptBuckets_nil (region ns comp : String) : keptBuckets region ns comp [] = [] := rfl

/-- Closed form of the oci_cs.py bucket loop: it appends exactly the
records of the buckets whose stats fetch succeeds, and bumps the
compartment summary and the grand totals by their common aggregate. -/
lemma osBucketLoop_eq (region ns comp : String) (bs : List Bucket)
    (s : Oci.ObjectStorageSummary) (acc : List ObjectStorageInfo) (t : OSTotals) :
    Oci.osBucketLoop region ns comp bs s acc t =
      (s.bump (osAgg (keptBuckets region ns comp bs)),
       acc ++ keptBuckets region ns comp bs,
       t.bump (osAgg (keptBuckets region ns comp bs))) := by
  induction bs generalizing s acc t with
  | nil =>
    simp [Oci.osBucketLoop, keptBuckets_nil, osAgg_nil, osSummary_bump_zero, osTotals_bump_zero]
  | cons b rest ih =>
    cases hb : mkBucketRow region ns comp b with
    | none =>
      have hk : keptBuckets region ns comp (b :: rest) = keptBuckets region ns comp rest := by
        simp [keptBuckets, List.filterMap_cons, hb]
      simp only [Oci.osBucketLoop, hb]
      rw [hk]
      exact ih s acc t
    | some row =>
      have hk : keptBuckets region ns comp (b :: rest) = row :: keptBuckets region ns comp rest := by
        simp [keptBuckets, List.filterMap_cons, hb]
      simp only [Oci.osBucketLoop, hb, ite_self_zero]
      rw [ih, hk, osAgg_cons, ← osSummary_bump_bump, ← osTotals_bump_bump]
      simp only [List.append_assoc, List.singleton_append]
      rfl

lemma cvSummary_bump_zero (s : CV.ObjectStorageSummary) : s.bump Agg3.zero = s := by
  cases s; simp [CV.ObjectStorageSummary.bump, Agg3.zero]

lemma cvSummary_bump_bump (s : CV.ObjectStorageSummary) (a b : Agg3) :
    (s.bump a).bump b = s.bump (a.add b) := by
  cases s; simp [CV.ObjectStorageSummary.bump, Agg3.add, Nat.add_assoc, add_assoc]

/-- Closed form of the CV bucket loop (it bumps the REGION summary). -/
lemma cvBucketLoop_eq (region ns comp : String) (bs : List Bucket)
    (s : CV.ObjectStorageSummary) (acc : List ObjectStorageInfo) (t : OSTotals) :
    CV.osBucketLoop region ns comp bs s acc t =
      (s.bump (osAgg (keptBuckets region ns comp bs)),
       acc ++ keptBuckets region ns comp bs,
       t.bump (osAgg (keptBuckets region ns comp bs))) := by
  induction bs generalizing s acc t with
  | nil =>
    simp [CV.osBucketLoop, keptBuckets_nil, osAgg_nil, cvSummary_bump_zero, osTotals_bump_zero]
  | cons b rest ih =>
    cases hb : mkBucketRow region ns comp b with
    | none =>
      have hk : keptBuckets region ns comp (b :: rest) = keptBuckets region ns comp rest := by
        simp [keptBuckets, List.filterMap_cons, hb]
      simp only [CV.osBucketLoop, hb]
      rw [hk]
      exact ih s acc t
    | some row =>
      have hk : keptBuckets region ns comp (b :: rest) = row :: keptBuckets region ns comp rest := by
        simp [keptBuckets, List.filterMap_cons, hb]
      simp only [CV.osBucketLoop, hb, ite_self_zero]
      rw [ih, hk, osAgg_cons, ← cvSummary_bump_bump, ← osTotals_bump_bump]
      simp only [List.append_assoc, List.singleton_append]
      rfl

lemma instAgg_nil : Oci.instAgg [] = Agg3.zero := rfl

lemma instAgg_cons (r : Oci.InstanceInfo) (l : List Oci.InstanceInfo) :
    Oci.instAgg (r :: l) = (Oci.aggOneInst r).add (Oci.instAgg l) := by
  simp [Oci.instAgg, Oci.aggOneInst, Agg3.add, Nat.add_comm]

lemma instSummary_bump_zero (s : Oci.InstanceSummary) : s.bump Agg3.zero = s := by
  cases s; simp [Oci.InstanceSummary.bump, Agg3.zero]

lemma instSummary_bump_bump (s : Oci.InstanceSummary) (a b : Agg3) :
    (s.bump a).bump b = s.bump (a.add b) := by
  cases s; simp [Oci.InstanceSummary.bump, Agg3.add, Nat.add_assoc, add_assoc]

lemma instTotals_bump_zero (t : InstTotals) : t.bump Agg3.zero = t := by
  cases t; simp [InstTotals.bump, Agg3.zero]

lemma instTotals_bump_bump (t : InstTotals) (a b : Agg3) :
    (t.bump a).bump b = t.bump (a.add b) := by
  cases t; simp [InstTotals.bump, Agg3.add, Nat.add_assoc, add_assoc]

lemma keptInstances_nil (region comp : String) : Oci.keptInstances region comp [] = [] := rfl

lemma keptInstances_cons_term (region comp : String) (i : RawInstance) (rest : List RawInstance)
    (h : i.lifecycleState = "TERMINATED") :
    Oci.keptInstances region comp (i :: rest) = Oci.keptInstances region comp rest := by
  simp [Oci.keptInstances, List.filter_cons, h]

lemma keptInstances_cons_live (region comp : String) (i : RawInstance) (rest : List RawInstance)
    (h : ¬ i.lifecycleState = "TERMINATED") :
    Oci.keptInstances region comp (i :: rest) =
      Oci.mkInstanceInfo region comp i :: Oci.keptInstances region comp rest := by
  simp [Oci.keptInstances, List.filter_cons, h]

/-- Closed form of the oci_cs.py instance loop: every non-TERMINATED
instance yields a record; summary and totals are bumped by the common
aggregate of those records. -/
lemma instLoop_eq (region comp : String) (insts : List RawInstance)
    (s : Oci.InstanceSummary) (acc : List Oci.InstanceInfo) (t : InstTotals) :
    Oci.instLoop region comp insts s acc t =
      (s.bump (Oci.instAgg (Oci.keptInstances region comp insts)),
       acc ++ Oci.keptInstances region comp insts,
       t.bump (Oci.instAgg (Oci.keptInstances region comp insts))) := by
  induction insts generalizing s acc t with
  | nil =>
    simp [Oci.instLoop, keptInstances_nil, instAgg_nil, instSummary_bump_zero, instTotals_bump_zero]
  | cons i rest ih =>
    by_cases h : i.lifecycleState = "TERMINATED"
    · rw [keptInstances_cons_term region comp i rest h]
      simp only [Oci.instLoop, if_pos h]
      exact ih s acc t
    · rw [keptInstances_cons_live region comp i rest h]
      simp only [Oci.instLoop, if_neg h]
      rw [ih, instAgg_cons, ← instSummary_bump_bump, ← instTotals_bump_bump]
      simp only [List.append_assoc, List.singleton_append]
      rfl

lemma okeAgg_nil : CV.okeAgg [] = CV.Agg5.zero := rfl

lemma okeAgg_cons (r : CV.OKEClusterInfo) (l : List CV.OKEClusterInfo) :
    CV.okeAgg (r :: l) = (CV.aggOneOke r).add (CV.okeAgg l) := by
  simp [CV.okeAgg, CV.aggOneOke, CV.Agg5.add, Nat.add_comm]

lemma okeSummary_bump_zero (s : CV.OKEClusterSummary) : s.bump CV.Agg5.zero = s := by
  cases s; simp [CV.OKEClusterSummary.bump, CV.Agg5.zero]

lemma okeSummary_bump_bump (s : CV.OKEClusterSummary) (a b : CV.Agg5) :
    (s.bump a).bump b = s.bump (a.add b) := by
  cases s; simp [CV.OKEClusterSummary.bump, CV.Agg5.add, Nat.add_assoc, add_assoc]

lemma okeTotals_bump_zero (t : CV.OKETotals) : t.bump CV.Agg5.zero = t := by
  cases t; simp [CV.OKETotals.bump, CV.Agg5.zero]

lemma okeTotals_bump_bump (t : CV.OKETotals) (a b : CV.Agg5) :
    (t.bump a).bump b = t.bump (a.add b) := by
  cases t; simp [CV.OKETotals.bump, CV.Agg5.add, Nat.add_assoc, add_assoc]

lemma keptClusters_nil (region : String) : CV.keptClusters region [] = [] := rfl

lemma keptClusters_cons_del (region : String) (c : CV.ClusterData) (rest : List CV.ClusterData)
    (h : c.lifecycleState = "DELETED") :
    CV.keptClusters region (c :: rest) = CV.keptClusters region rest := by
  simp [CV.keptClusters, List.filter_cons, h]

lemma keptClusters_cons_live (region : String) (c : CV.ClusterData) (rest : List CV.ClusterData)
    (h : ¬ c.lifecycleState = "DELETED") :
    CV.keptClusters region (c :: rest) =
      CV.processCluster region c :: CV.keptClusters region rest := by
  simp [CV.keptClusters, List.filter_cons, h]

/-- Closed form of the OKE per-cluster loop: records, summary bumps,
totals bumps, and the disk after all kubeconfig removals. -/
lemma okeClusterLoop_eq (region : String) (cs : List CV.ClusterData)
    (s : CV.OKEClusterSummary) (acc : List CV.OKEClusterInfo) (t : CV.OKETotals)
    (disk : List String) :
    CV.okeClusterLoop region cs s acc t disk =
      (s.bump (CV.okeAgg (CV.keptClusters region cs)),
       acc ++ CV.keptClusters region cs,
       t.bump (CV.okeAgg (CV.keptClusters region cs)),
       okeDiskAfter cs disk) := by
  induction cs generalizing s acc t disk with
  | nil =>
    simp [CV.okeClusterLoop, keptClusters_nil, okeAgg_nil, okeSummary_bump_zero,
      okeTotals_bump_zero, okeDiskAfter]
  | cons c rest ih =>
    by_cases h : c.lifecycleState = "DELETED"
    · rw [keptClusters_cons_del region c rest h]
      simp only [CV.okeClusterLoop, if_pos h, okeDiskAfter, h]
      simp only [if_pos trivial]
      exact ih s acc t disk
    · rw [keptClusters_cons_live region c rest h]
      simp only [CV.okeClusterLoop, if_neg h, okeDiskAfter]
      rw [ih, okeAgg_cons, ← okeSummary_bump_bump, ← okeTotals_bump_bump]
      simp only [List.append_assoc, List.singleton_append]
      rfl

lemma osAgg_append (l1 l2 : List ObjectStorageInfo) :
    osAgg (l1 ++ l2) = (osAgg l1).add (osAgg l2) := by
  simp [osAgg, Agg3.add]

lemma okeAgg_append (l1 l2 : List CV.OKEClusterInfo) :
    CV.okeAgg (l1 ++ l2) = (CV.okeAgg l1).add (CV.okeAgg l2) := by
  simp [CV.okeAgg, CV.Agg5.add]

/-- Closed form of the CV object-storage compartment loop: one region
summary accumulates the aggregate of all records kept across its
compartments, and the grand totals move by the same aggregate. -/
lemma cvCompLoop_eq (region ns : String) (comps : List Oci.OSCompData)
    (s : CV.ObjectStorageSummary) (rows : List ObjectStorageInfo) (t : OSTotals) :
    CV.osCompLoopCv region ns comps s rows t =
      (s.bump (osAgg (cvCompKept region ns comps)),
       rows ++ cvCompKept region ns comps,
       t.bump (osAgg (cvCompKept region ns comps))) := by
  induction comps generalizing s rows t with
  | nil =>
    simp [CV.osCompLoopCv, cvCompKept, osAgg_nil, cvSummary_bump_zero, osTotals_bump_zero]
  | cons c rest ih =>
    cases hc : c.bucketsRes with
    | none =>
      simp only [CV.osCompLoopCv, hc, cvCompKept]
      exact ih s rows t
    | some bs =>
      by_cases hlen : bs.length = 0
      · simp only [CV.osCompLoopCv, hc, cvCompKept, if_pos hlen]
        exact ih s rows t
      · simp only [CV.osCompLoopCv, hc, cvCompKept, if_neg hlen]
        rw [cvBucketLoop_eq]
        simp only [List.nil_append]
        rw [ih, osAgg_append, ← cvSummary_bump_bump, ← osTotals_bump_bump,
          List.append_assoc]

/-- Closed form of the OKE compartment loop of one region. -/
lemma okeCompLoop_eq (region : String) (comps : List CV.OKECompData)
    (s : CV.OKEClusterSummary) (rows : List CV.OKEClusterInfo) (t : CV.OKETotals)
    (disk : List String) :
    CV.okeCompLoop region comps s rows t disk =
      (s.bump (CV.okeAgg (okeCompKept region comps)),
       rows ++ okeCompKept region comps,
       t.bump (CV.okeAgg (okeCompKept region comps)),
       okeCompDiskAfter comps disk) := by
  induction comps generalizing s rows t disk with
  | nil =>
    simp [CV.okeCompLoop, okeCompKept, okeAgg_nil, okeSummary_bump_zero,
      okeTotals_bump_zero, okeCompDiskAfter]
  | cons c rest ih =>
    cases hc : c.clustersRes with
    | none =>
      simp only [CV.okeCompLoop, hc, okeCompKept, okeCompDiskAfter]
      exact ih s rows t disk
    | some cs =>
      simp only [CV.okeCompLoop, hc, okeCompKept, okeCompDiskAfter]
      rw [okeClusterLoop_eq]
      simp only [List.nil_append]
      rw [ih, okeAgg_append, ← okeSummary_bump_bump, ← okeTotals_bump_bump,
        List.append_assoc]

lemma osRunInv_init (cfg : Config) (t0 : OSTotals) : OSRunInv t0 (Oci.osInitRun cfg t0) := by
  refine ⟨?_, rfl, by simp [Oci.osInitRun]⟩
  simp [Oci.osInitRun, osAgg_nil, osTotals_bump_zero]

lemma osRunInv_config (t0 : OSTotals) (st : Oci.OSRun) (c : Config) (h : OSRunInv t0 st) :
    OSRunInv t0 { st with config := c } := h

lemma osCompLoop_inv (region ns : String) (comps : List Oci.OSCompData)
    (st : Oci.OSRun) (t0 : OSTotals) (h : OSRunInv t0 st) :
    OSRunInv t0 (Oci.osCompLoop region ns comps st) := by
  induction comps generalizing st with
  | nil => simpa [Oci.osCompLoop] using h
  | cons c rest ih =>
    cases hc : c.bucketsRes with
    | none =>
      simp only [Oci.osCompLoop, hc]
      exact ih st h
    | some bs =>
      by_cases hlen : bs.length = 0
      · simp only [Oci.osCompLoop, hc, if_pos hlen]
        exact ih st h
      · simp only [Oci.osCompLoop, hc, if_neg hlen]
        rw [osBucketLoop_eq]
        apply ih
        obtain ⟨h1, h2, h3⟩ := h
        refine ⟨?_, ?_, ?_⟩
        · simp only [List.nil_append]
          rw [h1, osTotals_bump_bump, ← osAgg_append]
        · simp only [List.map_append, List.flatten_append, h2]
          simp
        · intro sc hsc
          simp only [List.mem_append, List.mem_singleton] at hsc
          rcases hsc with hsc | hsc
          · exact h3 sc hsc
          · subst hsc
            refine ⟨?_, ?_, ?_⟩ <;>
              simp [Oci.ObjectStorageSummary.bump, osAgg]

lemma osRegionLoop_inv (rds : List Oci.OSRegionData) (st : Oci.OSRun) (t0 : OSTotals)
    (h : OSRunInv t0 st) : OSRunInv t0 (Oci.osRegionLoop rds st) := by
  induction rds generalizing st with
  | nil => simpa [Oci.osRegionLoop] using h
  | cons r rest ih =>
    cases hn : r.nsRes with
    | none =>
      simp only [Oci.osRegionLoop, hn]
      exact ih _ (osRunInv_config t0 st _ h)
    | some ns =>
      simp only [Oci.osRegionLoop, hn]
      exact ih _ (osCompLoop_inv r.region ns r.comps _ t0 (osRunInv_config t0 st _ h))

lemma okeRunInv_init (cfg : Config) (t0 : CV.OKETotals) (disk0 : List String) :
    OKERunInv t0 (CV.okeInitRun cfg t0 disk0) := by
  refine ⟨?_, rfl, by simp [CV.okeInitRun]⟩
  simp [CV.okeInitRun, okeAgg_nil, okeTotals_bump_zero]

lemma okeRegionLoop_inv (rds : List CV.OKERegionData) (st : CV.OKERun) (t0 : CV.OKETotals)
    (h : OKERunInv t0 st) : OKERunInv t0 (CV.okeRegionLoop rds st) := by
  induction rds generalizing st with
  | nil => simpa [CV.okeRegionLoop] using h
  | cons r rest ih =>
    simp only [CV.okeRegionLoop]
    rw [okeCompLoop_eq]
    apply ih
    obtain ⟨h1, h2, h3⟩ := h
    refine ⟨?_, ?_, ?_⟩
    · simp only [List.nil_append]
      rw [h1, okeTotals_bump_bump, ← okeAgg_append]
    · simp only [List.map_append, List.flatten_append, h2]
      simp
    · intro sc hsc
      simp only [List.mem_append, List.mem_singleton] at hsc
      rcases hsc with hsc | hsc
      · exact h3 sc hsc
      · subst hsc
        refine ⟨?_, ?_, ?_, ?_, ?_⟩ <;>
          simp [CV.OKEClusterSummary.bump, CV.okeAgg]

lemma cfgSet_collapse (c : Config) (k a b : String) :
    cfgSet (cfgSet c k a) k b = cfgSet c k b := by
  funext k2
  by_cases h : k2 = k <;> simp [cfgSet, h]

lemma cfgSet_same (c : Config) (k v : String) : cfgSet c k v k = some v := by
  simp [cfgSet]

lemma cfgSet_other (c : Config) (k v k2 : String) (h : k2 ≠ k) : cfgSet c k v k2 = c k2 := by
  simp [cfgSet, h]

lemma osCompLoop_config (region ns : String) (comps : List Oci.OSCompData) (st : Oci.OSRun) :
    (Oci.osCompLoop region ns comps st).config = st.config := by
  induction comps generalizing st with
  | nil => simp [Oci.osCompLoop]
  | cons c rest ih =>
    cases hc : c.bucketsRes with
    | none =>
      simp only [Oci.osCompLoop, hc]
      exact ih st
    | some bs =>
      by_cases hlen : bs.length = 0
      · simp only [Oci.osCompLoop, hc, if_pos hlen]
        exact ih st
      · simp only [Oci.osCompLoop, hc, if_neg hlen]
        exact ih _


lemma osRegionLoop_cons (r : Oci.OSRegionData) (rest : List Oci.OSRegionData) (st : Oci.OSRun) :
    Oci.osRegionLoop (r :: rest) st =
      (match r.nsRes with
       | none => Oci.osRegionLoop rest { st with config := cfgSet st.config "region" r.region }
       | some ns => Oci.osRegionLoop rest
           (Oci.osCompLoop r.region ns r.comps
             { st with config := cfgSet st.config "region" r.region })) := rfl

lemma osRegionLoop_config (rds : List Oci.OSRegionData) :
    ∀ (st : Oci.OSRun) (rl : Oci.OSRegionData), rds.getLast? = some rl →
      (Oci.osRegionLoop rds st).config = cfgSet st.config "region" rl.region := by
  induction rds with
  | nil => intro st rl hl; cases hl
  | cons r rest ih =>
    intro st rl hl
    rw [osRegionLoop_cons]
    cases rest with
    | nil =>
      have hr : rl = r := by
        simp [List.getLast?] at hl
        exact hl.symm
      cases hn : r.nsRes with
      | none => simp only [hn, Oci.osRegionLoop, hr]
      | some ns =>
        simp only [hn, Oci.osRegionLoop]
        rw [osCompLoop_config, hr]
    | cons r2 rest2 =>
      have hl2 : (r2 :: rest2).getLast? = some rl := by
        rwa [List.getLast?_cons_cons] at hl
      cases hn : r.nsRes with
      | none =>
        simp only [hn]
        rw [ih _ rl hl2]
        exact cfgSet_collapse _ _ _ _
      | some ns =>
        simp only [hn]
        rw [ih _ rl hl2, osCompLoop_config]
        exact cfgSet_collapse _ _ _ _

lemma cvRegionLoop_cons (r : Oci.OSRegionData) (rest : List Oci.OSRegionData) (st : CV.OSRun) :
    CV.osRegionLoopCv (r :: rest) st =
      (match r.nsRes with
       | none => CV.osRegionLoopCv rest { st with config := cfgSet st.config "region" r.region }
       | some ns =>
         let st1 : CV.OSRun := { st with config := cfgSet st.config "region" r.region }
         let s0 : CV.ObjectStorageSummary :=
           { region := r.region, nsName := none, bucket_count := 0
             total_storage_GB := 0, total_storage_TB := 0 }
         let res := CV.osCompLoopCv r.region ns r.comps s0 [] st1.totals
         CV.osRegionLoopCv rest
           { st1 with
             scopes := st1.scopes ++ [⟨res.1, res.2.1⟩]
             infoRows := st1.infoRows ++ res.2.1
             totals := res.2.2 }) := rfl

lemma cvRegionLoop_config (rds : List Oci.OSRegionData) :
    ∀ (st : CV.OSRun) (rl : Oci.OSRegionData), rds.getLast? = some rl →
      (CV.osRegionLoopCv rds st).config = cfgSet st.config "region" rl.region := by
  induction rds with
  | nil => intro st rl hl; cases hl
  | cons r rest ih =>
    intro st rl hl
    rw [cvRegionLoop_cons]
    cases rest with
    | nil =>
      have hr : rl = r := by
        simp [List.getLast?] at hl
        exact hl.symm
      cases hn : r.nsRes with
      | none => simp only [hn, CV.osRegionLoopCv, hr]
      | some ns => simp only [hn, CV.osRegionLoopCv, hr]
    | cons r2 rest2 =>
      have hl2 : (r2 :: rest2).getLast? = some rl := by
        rwa [List.getLast?_cons_cons] at hl
      cases hn : r.nsRes with
      | none =>
        simp only [hn]
        rw [ih _ rl hl2]
        exact cfgSet_collapse _ _ _ _
      | some ns =>
        simp only [hn]
        rw [ih _ rl hl2]
        exact cfgSet_collapse _ _ _ _

lemma okeRegionLoop_cons (r : CV.OKERegionData) (rest : List CV.OKERegionData) (st : CV.OKERun) :
    CV.okeRegionLoop (r :: rest) st =
      (let st1 : CV.OKERun := { st with config := cfgSet st.config "region" r.region }
       let s0 : CV.OKEClusterSummary :=
         { region := r.region, cluster_count := 0, total_node_count := 0
           total_pvc_count := 0, total_pvc_size_gb := 0, total_pvc_size_tb := 0 }
       let res := CV.okeCompLoop r.region r.comps s0 [] st1.totals st1.disk
       CV.okeRegionLoop rest
         { st1 with
           scopes := st1.scopes ++ [⟨res.1, res.2.1⟩]
           infoRows := st1.infoRows ++ res.2.1
           totals := res.2.2.1
           disk := res.2.2.2 }) := rfl

lemma okeRegionLoop_config (rds : List CV.OKERegionData) :
    ∀ (st : CV.OKERun) (rl : CV.OKERegionData), rds.getLast? = some rl →
      (CV.okeRegionLoop rds st).config = cfgSet st.config "region" rl.region := by
  induction rds with
  | nil => intro st rl hl; cases hl
  | cons r rest ih =>
    intro st rl hl
    rw [okeRegionLoop_cons]
    cases rest with
    | nil =>
      have hr : rl = r := by
        simp [List.getLast?] at hl
        exact hl.symm
      simp only [CV.okeRegionLoop, hr]
    | cons r2 rest2 =>
      have hl2 : (r2 :: rest2).getLast? = some rl := by
        rwa [List.getLast?_cons_cons] at hl
      simp only []
      rw [ih _ rl hl2]
      exact cfgSet_collapse _ _ _ _

lemma instCompLoop_config (region : String) (comps : List Oci.InstCompData) :
    ∀ (st st2 : Oci.InstRun), Oci.instCompLoop region comps st = .ok st2 →
      st2.config = st.config := by
  induction comps with
  | nil =>
    intro st st2 h
    simp [Oci.instCompLoop] at h
    rw [← h]
  | cons c rest ih =>
    intro st st2 h
    cases hc : c.instancesRes with
    | none => simp [Oci.instCompLoop, hc] at h
    | some insts =>
      by_cases hlen : insts.length = 0
      · simp only [Oci.instCompLoop, hc, if_pos hlen] at h
        exact ih _ _ h
      · simp only [Oci.instCompLoop, hc, if_neg hlen] at h
        exact (ih _ _ h).trans rfl

lemma instRegionLoop_cons (r : Oci.InstRegionData) (rest : List Oci.InstRegionData)
    (st : Oci.InstRun) :
    Oci.instRegionLoop (r :: rest) st =
      (match Oci.instCompLoop r.region r.comps
          { st with config := cfgSet st.config "region" r.region } with
       | .error e => .error e
       | .ok st2 => Oci.instRegionLoop rest st2) := rfl

lemma instRegionLoop_config (rds : List Oci.InstRegionData) :
    ∀ (st st2 : Oci.InstRun) (rl : Oci.InstRegionData), rds.getLast? = some rl →
      Oci.instRegionLoop rds st = .ok st2 →
      st2.config = cfgSet st.config "region" rl.region := by
  induction rds with
  | nil => intro st st2 rl hl; cases hl
  | cons r rest ih =>
    intro st st2 rl hl h
    rw [instRegionLoop_cons] at h
    cases hcl : Oci.instCompLoop r.region r.comps
        { st with config := cfgSet st.config "region" r.region } with
    | error e => rw [hcl] at h; cases h
    | ok stX =>
      rw [hcl] at h
      have hcfg : stX.config = cfgSet st.config "region" r.region :=
        instCompLoop_config r.region r.comps _ _ hcl
      cases rest with
      | nil =>
        have hr : rl = r := by
          simp [List.getLast?] at hl
          exact hl.symm
        simp [Oci.instRegionLoop] at h
        rw [← h, hcfg, hr]
      | cons r2 rest2 =>
        have hl2 : (r2 :: rest2).getLast? = some rl := by
          rwa [List.getLast?_cons_cons] at hl
        rw [ih _ _ rl hl2 h, hcfg]
        exact cfgSet_collapse _ _ _ _

lemma processClusterDisk_not_mem (c : CV.ClusterData) (disk : List String) :
    CV.kubecfgFile c.clusterId ∉ CV.processClusterDisk c disk := by
  intro hx
  unfold CV.processClusterDisk at hx
  rw [List.mem_filter] at hx
  simp at hx

lemma processClusterDisk_subset (c : CV.ClusterData) (disk : List String) :
    CV.processClusterDisk c disk ⊆ disk := by
  intro x hx
  unfold CV.processClusterDisk at hx
  rw [List.mem_filter] at hx
  obtain ⟨hmem, hne⟩ := hx
  by_cases hg : c.kubecfgGen
  · rw [if_pos hg, List.mem_append] at hmem
    rcases hmem with hmem | hmem
    · exact hmem
    · simp at hmem hne
      exact absurd hmem hne
  · rwa [if_neg hg] at hmem

lemma okeDiskAfter_subset (cs : List CV.ClusterData) (disk : List String) :
    okeDiskAfter cs disk ⊆ disk := by
  induction cs generalizing disk with
  | nil => simp [okeDiskAfter]
  | cons c rest ih =>
    by_cases h : c.lifecycleState = "DELETED"
    · simp only [okeDiskAfter, if_pos h]
      exact ih disk
    · simp only [okeDiskAfter, if_neg h]
      exact (ih _).trans (processClusterDisk_subset c disk)

lemma okeDiskAfter_not_mem (cs : List CV.ClusterData) (disk : List String) (c : CV.ClusterData)
    (hc : c ∈ cs) (hs : c.lifecycleState ≠ "DELETED") :
    CV.kubecfgFile c.clusterId ∉ okeDiskAfter cs disk := by
  induction cs generalizing disk with
  | nil => cases hc
  | cons d rest ih =>
    rcases List.mem_cons.mp hc with rfl | hmem
    · simp only [okeDiskAfter, if_neg hs]
      intro hx
      exact processClusterDisk_not_mem c disk (okeDiskAfter_subset rest _ hx)
    · by_cases hd : d.lifecycleState = "DELETED"
      · simp only [okeDiskAfter, if_pos hd]
        exact ih disk hmem
      · simp only [okeDiskAfter, if_neg hd]
        exact ih _ hmem

lemma okeCompDiskAfter_subset (comps : List CV.OKECompData) (disk : List String) :
    okeCompDiskAfter comps disk ⊆ disk := by
  induction comps generalizing disk with
  | nil => simp [okeCompDiskAfter]
  | cons c rest ih =>
    cases hc : c.clustersRes with
    | none =>
      simp only [okeCompDiskAfter, hc]
      exact ih disk
    | some cs =>
      simp only [okeCompDiskAfter, hc]
      exact (ih _).trans (okeDiskAfter_subset cs disk)

lemma okeCompDiskAfter_not_mem (comps : List CV.OKECompData) (disk : List String)
    (c : CV.ClusterData) (cd : CV.OKECompData) (hcd : cd ∈ comps)
    (hc : c ∈ cd.clustersRes.getD []) (hs : c.lifecycleState ≠ "DELETED") :
    CV.kubecfgFile c.clusterId ∉ okeCompDiskAfter comps disk := by
  induction comps generalizing disk with
  | nil => cases hcd
  | cons d rest ih =>
    rcases List.mem_cons.mp hcd with rfl | hmem
    · cases hres : cd.clustersRes with
      | none => rw [hres] at hc; cases hc
      | some cs =>
        rw [hres] at hc
        simp only [okeCompDiskAfter, hres]
        intro hx
        exact okeDiskAfter_not_mem cs disk c hc hs (okeCompDiskAfter_subset rest _ hx)
    · cases hres : d.clustersRes with
      | none =>
        simp only [okeCompDiskAfter, hres]
        exact ih disk hmem
      | some cs =>
        simp only [okeCompDiskAfter, hres]
        exact ih _ hmem

lemma okeRegionLoop_disk_subset (rds : List CV.OKERegionData) (st : CV.OKERun) :
    (CV.okeRegionLoop rds st).disk ⊆ st.disk := by
  induction rds generalizing st with
  | nil => simp [CV.okeRegionLoop]
  | cons r rest ih =>
    rw [okeRegionLoop_cons]
    simp only []
    rw [okeCompLoop_eq]
    exact (ih _).trans (okeCompDiskAfter_subset r.comps st.disk)

lemma okeRegionLoop_not_mem (rds : List CV.OKERegionData) (st : CV.OKERun)
    (c : CV.ClusterData) (hc : c ∈ CV.processedClusters rds) :
    CV.kubecfgFile c.clusterId ∉ (CV.okeRegionLoop rds st).disk := by
  induction rds generalizing st with
  | nil => simp [CV.processedClusters] at hc
  | cons r rest ih =>
    simp only [CV.processedClusters] at hc
    rw [List.mem_filter] at hc
    obtain ⟨hmem, hsb⟩ := hc
    have hs : c.lifecycleState ≠ "DELETED" := by simpa using hsb
    rw [List.flatMap_cons, List.mem_append] at hmem
    rw [okeRegionLoop_cons]
    simp only []
    rw [okeCompLoop_eq]
    rcases hmem with hmem | hmem
    · rw [List.mem_flatMap] at hmem
      obtain ⟨cd, hcd, hcin⟩ := hmem
      intro hx
      exact okeCompDiskAfter_not_mem r.comps st.disk c cd hcd hcin hs
        (okeRegionLoop_disk_subset rest _ hx)
    · apply ih
      simp only [CV.processedClusters]
      rw [List.mem_filter]
      exact ⟨hmem, hsb⟩

lemma keptInstances_filter (region comp : String) (insts : List RawInstance) :
    Oci.keptInstances region comp
        (insts.filter fun i => i.lifecycleState ≠ "TERMINATED") =
      Oci.keptInstances region comp insts := by
  simp [Oci.keptInstances, List.filter_filter]

lemma keptInstances_state (region comp : String) (insts : List RawInstance)
    (r : Oci.InstanceInfo) (hr : r ∈ Oci.keptInstances region comp insts) :
    r.state ≠ "TERMINATED" := by
  simp only [Oci.keptInstances, List.mem_map, List.mem_filter] at hr
  obtain ⟨i, ⟨_, hstate⟩, rfl⟩ := hr
  simpa [Oci.mkInstanceInfo] using of_decide_eq_true hstate

lemma keptClusters_filter (region : String) (cs : List CV.ClusterData) :
    CV.keptClusters region (cs.filter fun c => c.lifecycleState ≠ "DELETED") =
      CV.keptClusters region cs := by
  simp [CV.keptClusters, List.filter_filter]

lemma okeDiskAfter_filter (cs : List CV.ClusterData) (disk : List String) :
    okeDiskAfter (cs.filter fun c => c.lifecycleState ≠ "DELETED") disk =
      okeDiskAfter cs disk := by
  induction cs generalizing disk with
  | nil => rfl
  | cons c rest ih =>
    by_cases h : c.lifecycleState = "DELETED"
    · rw [List.filter_cons_of_neg (by simp [h])]
      rw [ih]
      simp [okeDiskAfter, h]
    · rw [List.filter_cons_of_pos (by simp [h])]
      simp only [okeDiskAfter, if_neg h]
      exact ih _

lemma keptBuckets_length (region ns comp : String) (bs : List Bucket) :
    (keptBuckets region ns comp bs).length =
      (bs.filter fun b => b.stats.isSome).length := by
  induction bs with
  | nil => rfl
  | cons b rest ih =>
    cases hb : b.stats with
    | none =>
      have hrow : mkBucketRow region ns comp b = none := by
        simp [mkBucketRow, hb]
      simp only [keptBuckets] at ih
      simp [keptBuckets, List.filterMap_cons, hrow, List.filter_cons, hb, ih]
    | some st =>
      have hrow : ∃ r, mkBucketRow region ns comp b = some r := by
        simp [mkBucketRow, hb]
      obtain ⟨r, hrow⟩ := hrow
      simp only [keptBuckets] at ih
      simp [keptBuckets, List.filterMap_cons, hrow, List.filter_cons, hb, ih]

lemma osScopes_sum (scopes : List Oci.OSScope)
    (h : ∀ sc ∈ scopes, sc.summary.bucket_count = sc.rows.length ∧
      sc.summary.total_storage_GB = (sc.rows.map ObjectStorageInfo.sizeGB).sum ∧
      sc.summary.total_storage_TB = (sc.rows.map ObjectStorageInfo.sizeTB).sum) :
    osAgg ((scopes.map Oci.OSScope.rows).flatten) =
      ⟨(scopes.map fun sc => sc.summary.bucket_count).sum,
       (scopes.map fun sc => sc.summary.total_storage_GB).sum,
       (scopes.map fun sc => sc.summary.total_storage_TB).sum⟩ := by
  induction scopes with
  | nil => rfl
  | cons sc rest ih =>
    obtain ⟨h1, h2, h3⟩ := h sc (List.mem_cons_self _ _)
    have hrest := ih fun x hx => h x (List.mem_cons_of_mem _ hx)
    simp only [List.map_cons, List.flatten_cons, List.sum_cons, osAgg_append, hrest]
    simp [osAgg, Agg3.add, h1, h2, h3]

lemma okeScopes_sum (scopes : List CV.OKEScope)
    (h : ∀ sc ∈ scopes, sc.summary.cluster_count = sc.rows.length ∧
      sc.summary.total_node_count = (sc.rows.map CV.OKEClusterInfo.node_count).sum ∧
      sc.summary.total_pvc_count = (sc.rows.map CV.OKEClusterInfo.pvc_count).sum ∧
      sc.summary.total_pvc_size_gb = (sc.rows.map CV.OKEClusterInfo.total_pvc_size_gb).sum ∧
      sc.summary.total_pvc_size_tb = (sc.rows.map CV.OKEClusterInfo.total_pvc_size_tb).sum) :
    CV.okeAgg ((scopes.map CV.OKEScope.rows).flatten) =
      ⟨(scopes.map fun sc => sc.summary.cluster_count).sum,
       (scopes.map fun sc => sc.summary.total_node_count).sum,
       (scopes.map fun sc => sc.summary.total_pvc_count).sum,
       (scopes.map fun sc => sc.summary.total_pvc_size_gb).sum,
       (scopes.map fun sc => sc.summary.total_pvc_size_tb).sum⟩ := by
  induction scopes with
  | nil => rfl
  | cons sc rest ih =>
    obtain ⟨h1, h2, h3, h4, h5⟩ := h sc (List.mem_cons_self _ _)
    have hrest := ih fun x hx => h x (List.mem_cons_of_mem _ hx)
    simp only [List.map_cons, List.flatten_cons, List.sum_cons, okeAgg_append, hrest]
    simp [CV.okeAgg, CV.Agg5.add, h1, h2, h3, h4, h5]

lemma osCompLoop_sheetBold (region ns : String) (comps : List Oci.OSCompData) (st : Oci.OSRun) :
    (Oci.osCompLoop region ns comps st).sheetBold = st.sheetBold := by
  induction comps generalizing st with
  | nil => simp [Oci.osCompLoop]
  | cons c rest ih =>
    cases hc : c.bucketsRes with
    | none =>
      simp only [Oci.osCompLoop, hc]
      exact ih st
    | some bs =>
      by_cases hlen : bs.length = 0
      · simp only [Oci.osCompLoop, hc, if_pos hlen]
        exact ih st
      · simp only [Oci.osCompLoop, hc, if_neg hlen]
        exact ih _

lemma osRegionLoop_sheetBold (rds : List Oci.OSRegionData) (st : Oci.OSRun) :
    (Oci.osRegionLoop rds st).sheetBold = st.sheetBold := by
  induction rds generalizing st with
  | nil => simp [Oci.osRegionLoop]
  | cons r rest ih =>
    rw [osRegionLoop_cons]
    cases hn : r.nsRes with
    | none =>
      simp only [hn]
      exact ih _
    | some ns =>
      simp only [hn]
      rw [ih _, osCompLoop_sheetBold]

lemma osCompLoop_sheet (region ns : String) (comps : List Oci.OSCompData) (st : Oci.OSRun)
    (h : st.sheetRows =
      Oci.osSummaryHeader :: st.scopes.map fun sc => Oci.osSummaryRow sc.summary) :
    (Oci.osCompLoop region ns comps st).sheetRows =
      Oci.osSummaryHeader ::
        (Oci.osCompLoop region ns comps st).scopes.map fun sc => Oci.osSummaryRow sc.summary := by
  induction comps generalizing st with
  | nil => simpa [Oci.osCompLoop] using h
  | cons c rest ih =>
    cases hc : c.bucketsRes with
    | none =>
      simp only [Oci.osCompLoop, hc]
      exact ih st h
    | some bs =>
      by_cases hlen : bs.length = 0
      · simp only [Oci.osCompLoop, hc, if_pos hlen]
        exact ih st h
      · simp only [Oci.osCompLoop, hc, if_neg hlen]
        apply ih
        simp [h, List.map_append]

lemma osRegionLoop_sheet (rds : List Oci.OSRegionData) (st : Oci.OSRun)
    (h : st.sheetRows =
      Oci.osSummaryHeader :: st.scopes.map fun sc => Oci.osSummaryRow sc.summary) :
    (Oci.osRegionLoop rds st).sheetRows =
      Oci.osSummaryHeader ::
        (Oci.osRegionLoop rds st).scopes.map fun sc => Oci.osSummaryRow sc.summary := by
  induction rds generalizing st with
  | nil => simpa [Oci.osRegionLoop] using h
  | cons r rest ih =>
    rw [osRegionLoop_cons]
    cases hn : r.nsRes with
    | none =>
      simp only [hn]
      exact ih _ h
    | some ns =>
      simp only [hn]
      exact ih _ (osCompLoop_sheet r.region ns r.comps _ h)

lemma cvRegionLoop_sheetRows (rds : List Oci.OSRegionData) (st : CV.OSRun) :
    (CV.osRegionLoopCv rds st).sheetRows = st.sheetRows := by
  induction rds generalizing st with
  | nil => simp [CV.osRegionLoopCv]
  | cons r rest ih =>
    rw [cvRegionLoop_cons]
    cases hn : r.nsRes with
    | none =>
      simp only [hn]
      exact ih _
    | some ns =>
      simp only [hn]
      exact ih _

lemma cvRegionLoop_sheetBold (rds : List Oci.OSRegionData) (st : CV.OSRun) :
    (CV.osRegionLoopCv rds st).sheetBold = st.sheetBold := by
  induction rds generalizing st with
  | nil => simp [CV.osRegionLoopCv]
  | cons r rest ih =>
    rw [cvRegionLoop_cons]
    cases hn : r.nsRes with
    | none =>
      simp only [hn]
      exact ih _
    | some ns =>
      simp only [hn]
      exact ih _

/- ----------------------------------------------------------------- -/
/- Claim theorems                                                     -/
/- ----------------------------------------------------------------- -/

/-- Claim C1, amended: every Detail Record (bucket or instance, either
variant) derives its TB field from its own GB field as
`round(GB / 1024, 2)` with the Python builtin round; but a Scope
Summary TB field (and the grand-total TB counter) is the SUM of its
Detail Records TB fields, not a rounding of the GB total. -/
theorem claim_C1 :
    (∀ (region ns comp : String) (b : Bucket) (row : ObjectStorageInfo),
      mkBucketRow region ns comp b = some row →
      row.sizeTB = pyround2 (row.sizeGB / 1024)) ∧
    (∀ (region comp : String) (i : RawInstance),
      (Oci.mkInstanceInfo region comp i).sizeTB =
        pyround2 ((Oci.mkInstanceInfo region comp i).sizeGB / 1024)) ∧
    (∀ (region comp : String) (i : RawInstance),
      (CV.mkInstanceInfo region comp i).sizeTB =
        pyround2 ((CV.mkInstanceInfo region comp i).sizeGB / 1024)) ∧
    (∀ (cfg : Config) (rds : List Oci.OSRegionData) (t0 : OSTotals),
      (∀ sc ∈ (Oci.get_object_storage_info cfg rds t0).scopes,
        sc.summary.total_storage_TB =
          (sc.rows.map ObjectStorageInfo.sizeTB).sum) ∧
      (Oci.get_object_storage_info cfg rds t0).totals.tb =
        t0.tb + ((Oci.get_object_storage_info cfg rds t0).infoRows.map
          ObjectStorageInfo.sizeTB).sum) := by
  refine ⟨mkBucketRow_sizeTB, fun _ _ _ => rfl, fun _ _ _ => rfl, ?_⟩
  intro cfg rds t0
  have hinv : OSRunInv t0 (Oci.get_object_storage_info cfg rds t0) :=
    osRegionLoop_inv rds _ t0 (osRunInv_init cfg t0)
  obtain ⟨h1, _, h3⟩ := hinv
  constructor
  · intro sc hsc
    exact (h3 sc hsc).2.2
  · rw [h1]
    rfl

/-- Claim C1, counterexample: in a run over one compartment holding two
600-GB buckets, the flushed Scope Summary has total_storage_GB = 1200
but total_storage_TB = 0.59 + 0.59 = 1.18, while rounding the GB total
(half-up, as the claim states it) gives round(1200/1024, 2) = 1.17: the
summary TB field is NOT the rounding of the summary GB field. -/
theorem claim_C1_counterexample :
    ((Oci.get_object_storage_info cfg0
        [⟨"r1", some "ns1", [⟨"c1", some [bucketOfGB "b1" 600, bucketOfGB "b2" 600]⟩]⟩]
        ⟨0, 0, 0⟩).scopes.map fun sc =>
          (sc.summary.total_storage_GB, sc.summary.total_storage_TB)) =
      [((1200 : ℚ), (118 : ℚ)/100)] ∧
    specRoundHalfUp2 ((1200 : ℚ) / 1024) = (117 : ℚ)/100 ∧
    ((118 : ℚ)/100 ≠ (117 : ℚ)/100) := by
  have hrow : ∀ nm : String, mkBucketRow "r1" "ns1" "c1" (bucketOfGB nm 600) =
      some { compartment_id := "c1", nsName := "ns1", bucket_name := nm, region := "r1"
             storage_tier := "Standard", object_count := 1, sizeGB := 600, sizeTB := 59/100
             defined_tags := "{}", freeform_tags := "{}" } := by
    intro nm
    simp only [mkBucketRow, bucketOfGB]
    norm_num [pyround2, rhe, qfloor]
  have hkept : keptBuckets "r1" "ns1" "c1" [bucketOfGB "b1" 600, bucketOfGB "b2" 600] =
      [{ compartment_id := "c1", nsName := "ns1", bucket_name := "b1", region := "r1"
         storage_tier := "Standard", object_count := 1, sizeGB := 600, sizeTB := 59/100
         defined_tags := "{}", freeform_tags := "{}" },
       { compartment_id := "c1", nsName := "ns1", bucket_name := "b2", region := "r1"
         storage_tier := "Standard", object_count := 1, sizeGB := 600, sizeTB := 59/100
         defined_tags := "{}", freeform_tags := "{}" }] := by
    simp [keptBuckets, hrow]
  refine ⟨?_, by norm_num [specRoundHalfUp2, qfloor], by norm_num⟩
  simp only [Oci.get_object_storage_info, Oci.osRegionLoop, Oci.osCompLoop, Oci.osInitRun]
  rw [osBucketLoop_eq, hkept]
  simp [Oci.ObjectStorageSummary.bump, osAgg]
  norm_num

/-- Claim C1, witness: the amended claim instantiated on a concrete
600-GB bucket record and on a concrete one-bucket run. -/
theorem claim_C1_witness :
    ((59 : ℚ)/100 = pyround2 ((600 : ℚ) / 1024)) ∧
    (Oci.get_object_storage_info cfg0
        [⟨"rw", some "nw", [⟨"cw", some [⟨"bw", some ⟨"S", "{}", "{}", none, 0⟩⟩]⟩]⟩]
        ⟨0, 0, 0⟩).scopes.length = 1 ∧
    ((Oci.get_object_storage_info cfg0
        [⟨"rw", some "nw", [⟨"cw", some [⟨"bw", some ⟨"S", "{}", "{}", none, 0⟩⟩]⟩]⟩]
        ⟨0, 0, 0⟩).scopes.map fun sc => sc.summary.total_storage_TB) =
      ((Oci.get_object_storage_info cfg0
        [⟨"rw", some "nw", [⟨"cw", some [⟨"bw", some ⟨"S", "{}", "{}", none, 0⟩⟩]⟩]⟩]
        ⟨0, 0, 0⟩).scopes.map fun sc => (sc.rows.map ObjectStorageInfo.sizeTB).sum) := by
  refine ⟨?_, ?_, ?_⟩
  · exact (claim_C1.1 "r1" "ns1" "c1" (bucketOfGB "b1" 600)
      { compartment_id := "c1", nsName := "ns1", bucket_name := "b1", region := "r1"
        storage_tier := "Standard", object_count := 1, sizeGB := 600, sizeTB := 59/100
        defined_tags := "{}", freeform_tags := "{}" }
      (by simp only [mkBucketRow, bucketOfGB]; norm_num [pyround2, rhe, qfloor]))
  · simp only [Oci.get_object_storage_info, Oci.osRegionLoop, Oci.osCompLoop, Oci.osInitRun]
    rw [osBucketLoop_eq]
    simp
  · exact List.map_congr_left fun sc hsc =>
      (claim_C1.2.2.2 cfg0
        [⟨"rw", some "nw", [⟨"cw", some [⟨"bw", some ⟨"S", "{}", "{}", none, 0⟩⟩]⟩]⟩]
        ⟨0, 0, 0⟩).1 sc hsc

/-- Claim C2: at the end of a run (grand totals start at zero), every
grand-total counter equals the sum of the corresponding field over the
emitted Scope Summaries, each Scope Summary field equals the sum over
its own Detail Records, and the detail table is exactly the
concatenation of the per-scope detail lists (each record counted once).
Shown for the oci_cs object-storage run and the CV OKE run. -/
theorem claim_C2 :
    (∀ (cfg : Config) (rds : List Oci.OSRegionData),
      (Oci.get_object_storage_info cfg rds ⟨0, 0, 0⟩).totals.buckets =
        ((Oci.get_object_storage_info cfg rds ⟨0, 0, 0⟩).scopes.map
          fun sc => sc.summary.bucket_count).sum ∧
      (Oci.get_object_storage_info cfg rds ⟨0, 0, 0⟩).totals.gb =
        ((Oci.get_object_storage_info cfg rds ⟨0, 0, 0⟩).scopes.map
          fun sc => sc.summary.total_storage_GB).sum ∧
      (Oci.get_object_storage_info cfg rds ⟨0, 0, 0⟩).totals.tb =
        ((Oci.get_object_storage_info cfg rds ⟨0, 0, 0⟩).scopes.map
          fun sc => sc.summary.total_storage_TB).sum ∧
      (Oci.get_object_storage_info cfg rds ⟨0, 0, 0⟩).infoRows =
        ((Oci.get_object_storage_info cfg rds ⟨0, 0, 0⟩).scopes.map
          Oci.OSScope.rows).flatten ∧
      (∀ sc ∈ (Oci.get_object_storage_info cfg rds ⟨0, 0, 0⟩).scopes,
        sc.summary.bucket_count = sc.rows.length ∧
        sc.summary.total_storage_GB = (sc.rows.map ObjectStorageInfo.sizeGB).sum ∧
        sc.summary.total_storage_TB = (sc.rows.map ObjectStorageInfo.sizeTB).sum)) ∧
    (∀ (cfg : Config) (rds : List CV.OKERegionData) (disk0 : List String),
      (CV.get_oke_cluster_info cfg rds ⟨0, 0, 0, 0, 0⟩ disk0).totals.clusters =
        ((CV.get_oke_cluster_info cfg rds ⟨0, 0, 0, 0, 0⟩ disk0).scopes.map
          fun sc => sc.summary.cluster_count).sum ∧
      (CV.get_oke_cluster_info cfg rds ⟨0, 0, 0, 0, 0⟩ disk0).totals.nodes =
        ((CV.get_oke_cluster_info cfg rds ⟨0, 0, 0, 0, 0⟩ disk0).scopes.map
          fun sc => sc.summary.total_node_count).sum ∧
      (CV.get_oke_cluster_info cfg rds ⟨0, 0, 0, 0, 0⟩ disk0).totals.pvcs =
        ((CV.get_oke_cluster_info cfg rds ⟨0, 0, 0, 0, 0⟩ disk0).scopes.map
          fun sc => sc.summary.total_pvc_count).sum ∧
      (CV.get_oke_cluster_info cfg rds ⟨0, 0, 0, 0, 0⟩ disk0).totals.gb =
        ((CV.get_oke_cluster_info cfg rds ⟨0, 0, 0, 0, 0⟩ disk0).scopes.map
          fun sc => sc.summary.total_pvc_size_gb).sum ∧
      (CV.get_oke_cluster_info cfg rds ⟨0, 0, 0, 0, 0⟩ disk0).totals.tb =
        ((CV.get_oke_cluster_info cfg rds ⟨0, 0, 0, 0, 0⟩ disk0).scopes.map
          fun sc => sc.summary.total_pvc_size_tb).sum ∧
      (CV.get_oke_cluster_info cfg rds ⟨0, 0, 0, 0, 0⟩ disk0).infoRows =
        ((CV.get_oke_cluster_info cfg rds ⟨0, 0, 0, 0, 0⟩ disk0).scopes.map
          CV.OKEScope.rows).flatten ∧
      (∀ sc ∈ (CV.get_oke_cluster_info cfg rds ⟨0, 0, 0, 0, 0⟩ disk0).scopes,
        sc.summary.cluster_count = sc.rows.length ∧
        sc.summary.total_node_count = (sc.rows.map CV.OKEClusterInfo.node_count).sum ∧
        sc.summary.total_pvc_count = (sc.rows.map CV.OKEClusterInfo.pvc_count).sum ∧
        sc.summary.total_pvc_size_gb = (sc.rows.map CV.OKEClusterInfo.total_pvc_size_gb).sum ∧
        sc.summary.total_pvc_size_tb = (sc.rows.map CV.OKEClusterInfo.total_pvc_size_tb).sum)) := by
  constructor
  · intro cfg rds
    have hinv : OSRunInv ⟨0, 0, 0⟩ (Oci.get_object_storage_info cfg rds ⟨0, 0, 0⟩) :=
      osRegionLoop_inv rds _ _ (osRunInv_init cfg ⟨0, 0, 0⟩)
    obtain ⟨h1, h2, h3⟩ := hinv
    have hagg := osScopes_sum _ h3
    rw [h2] at h1
    rw [hagg] at h1
    refine ⟨?_, ?_, ?_, h2, h3⟩ <;>
      simp [h1, OSTotals.bump]
  · intro cfg rds disk0
    have hinv : OKERunInv ⟨0, 0, 0, 0, 0⟩ (CV.get_oke_cluster_info cfg rds ⟨0, 0, 0, 0, 0⟩ disk0) :=
      okeRegionLoop_inv rds _ _ (okeRunInv_init cfg ⟨0, 0, 0, 0, 0⟩ disk0)
    obtain ⟨h1, h2, h3⟩ := hinv
    have hagg := okeScopes_sum _ h3
    rw [h2] at h1
    rw [hagg] at h1
    refine ⟨?_, ?_, ?_, ?_, ?_, h2, h3⟩ <;>
      simp [h1, CV.OKETotals.bump]

/-- Claim C2, witness: the reconciliation equalities instantiated on a
concrete one-compartment object-storage run and a concrete one-region
OKE run. -/
theorem claim_C2_witness :
    (Oci.get_object_storage_info cfg0
        [⟨"rw", some "nw", [⟨"cw", some [⟨"bw", none⟩]⟩]⟩] ⟨0, 0, 0⟩).totals.buckets =
      ((Oci.get_object_storage_info cfg0
        [⟨"rw", some "nw", [⟨"cw", some [⟨"bw", none⟩]⟩]⟩] ⟨0, 0, 0⟩).scopes.map
          fun sc => sc.summary.bucket_count).sum ∧
    ((Oci.get_object_storage_info cfg0
        [⟨"rw", some "nw", [⟨"cw", some [⟨"bw", none⟩]⟩]⟩] ⟨0, 0, 0⟩).scopes.map
          fun sc => sc.summary.bucket_count) =
      ((Oci.get_object_storage_info cfg0
        [⟨"rw", some "nw", [⟨"cw", some [⟨"bw", none⟩]⟩]⟩] ⟨0, 0, 0⟩).scopes.map
          fun sc => sc.rows.length) ∧
    (Oci.get_object_storage_info cfg0
        [⟨"rw", some "nw", [⟨"cw", some [⟨"bw", none⟩]⟩]⟩] ⟨0, 0, 0⟩).scopes.length = 1 ∧
    (CV.get_oke_cluster_info cfg0 [⟨"rk", [⟨"ck", some []⟩]⟩] ⟨0, 0, 0, 0, 0⟩ []).totals.clusters =
      ((CV.get_oke_cluster_info cfg0 [⟨"rk", [⟨"ck", some []⟩]⟩] ⟨0, 0, 0, 0, 0⟩ []).scopes.map
        fun sc => sc.summary.cluster_count).sum ∧
    (CV.get_oke_cluster_info cfg0 [⟨"rk", [⟨"ck", some []⟩]⟩] ⟨0, 0, 0, 0, 0⟩ []).scopes.length = 1 := by
  refine ⟨(claim_C2.1 cfg0 _).1, ?_, ?_, (claim_C2.2 cfg0 _ _).1, ?_⟩
  · exact List.map_congr_left fun sc hsc => ((claim_C2.1 cfg0 _).2.2.2.2 sc hsc).1
  · simp only [Oci.get_object_storage_info, Oci.osRegionLoop, Oci.osCompLoop, Oci.osInitRun]
    rw [osBucketLoop_eq]
    simp
  · simp only [CV.get_oke_cluster_info, CV.okeRegionLoop, CV.okeCompLoop, CV.okeClusterLoop,
      CV.okeInitRun]
    simp

/-- Claim C3: folding the detail records of one scope produces a
summary whose count is the number of records consumed and whose sums
are the arithmetic sums of the per-record fields, and moves the
process-wide grand totals by exactly the same deltas.  Shown for the
oci_cs per-compartment instance fold and the CV per-region
object-storage fold. -/
theorem claim_C3 :
    (∀ (region comp : String) (insts : List RawInstance) (t : InstTotals),
      (Oci.instLoop region comp insts (Oci.InstanceSummary.zeroOf region comp) [] t).1.instance_count =
        (Oci.instLoop region comp insts (Oci.InstanceSummary.zeroOf region comp) [] t).2.1.length ∧
      (Oci.instLoop region comp insts (Oci.InstanceSummary.zeroOf region comp) [] t).1.total_sizeGB =
        ((Oci.instLoop region comp insts (Oci.InstanceSummary.zeroOf region comp) [] t).2.1.map
          Oci.InstanceInfo.sizeGB).sum ∧
      (Oci.instLoop region comp insts (Oci.InstanceSummary.zeroOf region comp) [] t).1.total_sizeTB =
        ((Oci.instLoop region comp insts (Oci.InstanceSummary.zeroOf region comp) [] t).2.1.map
          Oci.InstanceInfo.sizeTB).sum ∧
      (Oci.instLoop region comp insts (Oci.InstanceSummary.zeroOf region comp) [] t).2.2 =
        t.bump ⟨(Oci.instLoop region comp insts (Oci.InstanceSummary.zeroOf region comp) [] t).1.instance_count,
          (Oci.instLoop region comp insts (Oci.InstanceSummary.zeroOf region comp) [] t).1.total_sizeGB,
          (Oci.instLoop region comp insts (Oci.InstanceSummary.zeroOf region comp) [] t).1.total_sizeTB⟩) ∧
    (∀ (region ns : String) (comps : List Oci.OSCompData) (t : OSTotals),
      (CV.osCompLoopCv region ns comps (CV.ObjectStorageSummary.zeroOf region) [] t).1.bucket_count =
        (CV.osCompLoopCv region ns comps (CV.ObjectStorageSummary.zeroOf region) [] t).2.1.length ∧
      (CV.osCompLoopCv region ns comps (CV.ObjectStorageSummary.zeroOf region) [] t).1.total_storage_GB =
        ((CV.osCompLoopCv region ns comps (CV.ObjectStorageSummary.zeroOf region) [] t).2.1.map
          ObjectStorageInfo.sizeGB).sum ∧
      (CV.osCompLoopCv region ns comps (CV.ObjectStorageSummary.zeroOf region) [] t).1.total_storage_TB =
        ((CV.osCompLoopCv region ns comps (CV.ObjectStorageSummary.zeroOf region) [] t).2.1.map
          ObjectStorageInfo.sizeTB).sum ∧
      (CV.osCompLoopCv region ns comps (CV.ObjectStorageSummary.zeroOf region) [] t).2.2 =
        t.bump ⟨(CV.osCompLoopCv region ns comps (CV.ObjectStorageSummary.zeroOf region) [] t).1.bucket_count,
          (CV.osCompLoopCv region ns comps (CV.ObjectStorageSummary.zeroOf region) [] t).1.total_storage_GB,
          (CV.osCompLoopCv region ns comps (CV.ObjectStorageSummary.zeroOf region) [] t).1.total_storage_TB⟩) := by
  constructor
  · intro region comp insts t
    rw [instLoop_eq]
    refine ⟨?_, ?_, ?_, ?_⟩ <;>
      simp [Oci.InstanceSummary.zeroOf, Oci.InstanceSummary.bump, InstTotals.bump, Oci.instAgg]
  · intro region ns comps t
    rw [cvCompLoop_eq]
    refine ⟨?_, ?_, ?_, ?_⟩ <;>
      simp [CV.ObjectStorageSummary.zeroOf, CV.ObjectStorageSummary.bump, OSTotals.bump, osAgg]

/-- Claim C4, amended: the two variants differ.  In oci_cs.py the
grand-total row is the final row of the summary sheet, appended after
all Scope Summary rows, but it is never bolded (only the header row,
index 0, is).  In CVOracleCloudSizingScript.py the grand-total row is
written BEFORE the Scope Summary rows (it sits at index 1, right after
the header) and that row is bolded. -/
theorem claim_C4 :
    (∀ (cfg : Config) (rds : List Oci.OSRegionData) (t0 : OSTotals),
      (Oci.get_object_storage_info cfg rds t0).sheetRows =
        Oci.osSummaryHeader ::
          ((Oci.get_object_storage_info cfg rds t0).scopes.map
            fun sc => Oci.osSummaryRow sc.summary) ++
          [Oci.osGrandTotalRow (Oci.get_object_storage_info cfg rds t0).totals] ∧
      (Oci.get_object_storage_info cfg rds t0).sheetBold = [0]) ∧
    (∀ (cfg : Config) (rds : List Oci.OSRegionData) (t0 : OSTotals),
      (CV.get_object_storage_info cfg rds t0).sheetRows =
        CV.osSummaryHeaderCv ::
          CV.osGrandTotalRowCv (CV.get_object_storage_info cfg rds t0).totals ::
          ((CV.get_object_storage_info cfg rds t0).scopes.map
            fun sc => CV.osSummaryRowCv sc.summary) ∧
      (CV.get_object_storage_info cfg rds t0).sheetBold = [1, 0]) := by
  constructor
  · intro cfg rds t0
    have hsheet := osRegionLoop_sheet rds (Oci.osInitRun cfg t0) (by simp [Oci.osInitRun])
    have hbold := osRegionLoop_sheetBold rds (Oci.osInitRun cfg t0)
    constructor
    · show (Oci.osRegionLoop rds (Oci.osInitRun cfg t0)).sheetRows ++
        [Oci.osGrandTotalRow (Oci.osRegionLoop rds (Oci.osInitRun cfg t0)).totals] = _
      rw [hsheet]
      simp only [List.cons_append]
      rfl
    · show (Oci.osRegionLoop rds (Oci.osInitRun cfg t0)).sheetBold ++ [0] = _
      rw [hbold]
      simp [Oci.osInitRun]
  · intro cfg rds t0
    have hsheet := cvRegionLoop_sheetRows rds (CV.osInitRunCv cfg t0)
    have hbold := cvRegionLoop_sheetBold rds (CV.osInitRunCv cfg t0)
    constructor
    · show ((CV.osRegionLoopCv rds (CV.osInitRunCv cfg t0)).sheetRows ++
        [CV.osGrandTotalRowCv (CV.osRegionLoopCv rds (CV.osInitRunCv cfg t0)).totals]) ++
        ((CV.osRegionLoopCv rds (CV.osInitRunCv cfg t0)).scopes.map
          fun sc => CV.osSummaryRowCv sc.summary) = _
      rw [hsheet]
      simp only [CV.osInitRunCv, List.cons_append, List.singleton_append, List.cons.injEq,
        true_and]
      rfl
    · show ((CV.osRegionLoopCv rds (CV.osInitRunCv cfg t0)).sheetBold ++ [1]) ++ [0] = _
      rw [hbold]
      simp [CV.osInitRunCv]

/-- Claim C4, counterexample: in a CV run over one region the summary
sheet ends with the region Scope Summary row, NOT the grand-total row
(which `write_grand_total` put at index 1, before `dump_summary` ran);
and in an oci_cs run the grand-total row is last but its index is not
in the bolded-row set (only the header, index 0, is bolded). -/
theorem claim_C4_counterexample :
    (CV.get_object_storage_info cfg0 [⟨"r1", some "ns1", []⟩] ⟨0, 0, 0⟩).sheetRows.getLast? =
      some [Cell.s "r1", Cell.n 0, Cell.q 0, Cell.q 0] ∧
    (CV.get_object_storage_info cfg0 [⟨"r1", some "ns1", []⟩] ⟨0, 0, 0⟩).sheetRows.getLast? ≠
      some (CV.osGrandTotalRowCv
        (CV.get_object_storage_info cfg0 [⟨"r1", some "ns1", []⟩] ⟨0, 0, 0⟩).totals) ∧
    (Oci.get_object_storage_info cfg0 [⟨"r1", some "ns1", []⟩] ⟨0, 0, 0⟩).sheetRows.getLast? =
      some (Oci.osGrandTotalRow
        (Oci.get_object_storage_info cfg0 [⟨"r1", some "ns1", []⟩] ⟨0, 0, 0⟩).totals) ∧
    (Oci.get_object_storage_info cfg0 [⟨"r1", some "ns1", []⟩] ⟨0, 0, 0⟩).sheetBold = [0] ∧
    ((Oci.get_object_storage_info cfg0 [⟨"r1", some "ns1", []⟩] ⟨0, 0, 0⟩).sheetRows.length - 1) ∉
      (Oci.get_object_storage_info cfg0 [⟨"r1", some "ns1", []⟩] ⟨0, 0, 0⟩).sheetBold := by
  refine ⟨?_, ?_, ?_, ?_, ?_⟩ <;>
    simp [CV.get_object_storage_info, CV.osRegionLoopCv, CV.osCompLoopCv, CV.osInitRunCv,
      CV.osSummaryHeaderCv, CV.osSummaryRowCv, CV.osGrandTotalRowCv,
      Oci.get_object_storage_info, Oci.osRegionLoop, Oci.osCompLoop, Oci.osInitRun,
      Oci.osSummaryHeader, Oci.osGrandTotalRow, List.getLast?]

/-- Claim C5, counterexample: a compartment with five buckets where one
stats fetch raises yields a Scope Summary with bucket_count 4 and only
4 detail rows, not the 5 rows / count 5 the claim requires: the bucket
whose `get_bucket` raises is skipped entirely (`continue`), not kept
with a zero size. -/
theorem claim_C5_counterexample :
    ((Oci.get_object_storage_info cfg0
        [⟨"r1", some "ns1", [⟨"c1", some
          [⟨"b1", some ⟨"S", "{}", "{}", none, 0⟩⟩,
           ⟨"b2", some ⟨"S", "{}", "{}", none, 0⟩⟩,
           bucketFail "b3",
           ⟨"b4", some ⟨"S", "{}", "{}", none, 0⟩⟩,
           ⟨"b5", some ⟨"S", "{}", "{}", none, 0⟩⟩]⟩]⟩]
        ⟨0, 0, 0⟩).scopes.map fun sc => (sc.summary.bucket_count, sc.rows.length)) =
      [((4 : ℕ), (4 : ℕ))] ∧
    ((4 : ℕ), (4 : ℕ)) ≠ ((5 : ℕ), (5 : ℕ)) := by
  constructor
  · simp only [Oci.get_object_storage_info, Oci.osRegionLoop, Oci.osCompLoop, Oci.osInitRun]
    rw [osBucketLoop_eq]
    simp [Oci.ObjectStorageSummary.bump, osAgg, keptBuckets, mkBucketRow, bucketFail]
  · decide

/-- Claim C5, amended: the two secondary-lookup failure modes differ.
A failing volume lookup degrades the instance size to zero and the
instance is still listed and counted (five instances with one failing
lookup give 5 rows and count 5); but a failing bucket stats fetch skips
that bucket entirely: it yields no detail row and is not counted (five
buckets with one failing stats fetch give 4 rows and count 4). -/
theorem claim_C5 :
    (∀ (region ns comp nm : String), mkBucketRow region ns comp ⟨nm, none⟩ = none) ∧
    (∀ (region ns comp : String) (bs : List Bucket) (t : OSTotals),
      (Oci.osBucketLoop region ns comp bs
        (Oci.ObjectStorageSummary.zeroOf region ns comp) [] t).1.bucket_count =
        (bs.filter fun b => b.stats.isSome).length ∧
      (Oci.osBucketLoop region ns comp bs
        (Oci.ObjectStorageSummary.zeroOf region ns comp) [] t).2.1.length =
        (bs.filter fun b => b.stats.isSome).length) ∧
    (∀ (region comp : String) (insts : List RawInstance) (t : InstTotals),
      (Oci.instLoop region comp insts
        (Oci.InstanceSummary.zeroOf region comp) [] t).2.1.length =
        (insts.filter fun i => i.lifecycleState ≠ "TERMINATED").length ∧
      (Oci.instLoop region comp insts
        (Oci.InstanceSummary.zeroOf region comp) [] t).1.instance_count =
        (insts.filter fun i => i.lifecycleState ≠ "TERMINATED").length) ∧
    (∀ (region comp : String) (i : RawInstance),
      i.bootAttach = none → i.blockAttach = none →
      (Oci.mkInstanceInfo region comp i).sizeGB = 0) := by
  refine ⟨fun _ _ _ _ => rfl, ?_, ?_, ?_⟩
  · intro region ns comp bs t
    rw [osBucketLoop_eq]
    constructor
    · simp [Oci.ObjectStorageSummary.zeroOf, Oci.ObjectStorageSummary.bump, osAgg,
        keptBuckets_length]
    · simp [keptBuckets_length]
  · intro region comp insts t
    rw [instLoop_eq]
    constructor
    · simp [Oci.keptInstances]
    · simp [Oci.InstanceSummary.zeroOf, Oci.InstanceSummary.bump, Oci.instAgg,
        Oci.keptInstances]
  · intro region comp i hboot hblock
    simp [Oci.mkInstanceInfo, hboot, hblock, Oci.get_boot_volume_size,
      Oci.get_block_volume_count_and_size]

/-- Claim C5, witness: a concrete instance whose volume lookups all
raise still yields a record of size zero, and a compartment of five
instances with that one failing lookup still yields five detail rows. -/
theorem claim_C5_witness :
    (Oci.mkInstanceInfo "rw" "cw" (instVolFail "i3")).sizeGB = 0 ∧
    (Oci.instLoop "rw" "cw"
      [instOfGB "i1" 50, instOfGB "i2" 50, instVolFail "i3", instOfGB "i4" 50, instOfGB "i5" 50]
      (Oci.InstanceSummary.zeroOf "rw" "cw") [] ⟨0, 0, 0⟩).2.1.length = 5 := by
  constructor
  · exact claim_C5.2.2.2 "rw" "cw" (instVolFail "i3") rfl rfl
  · rw [(claim_C5.2.2.1 "rw" "cw"
      [instOfGB "i1" 50, instOfGB "i2" 50, instVolFail "i3", instOfGB "i4" 50, instOfGB "i5" 50]
      ⟨0, 0, 0⟩).1]
    simp [instOfGB, instVolFail]

/-- Claim C6: the claim is right about the design and about the other
workloads, but the instance workload violates it: the `list_instances`
call has no try/except in either variant, so an enumeration failure in
one compartment aborts the whole instance run (no grand total, no
report), while the same failure in the object-storage run is skipped
and the run still completes with both remaining scopes. -/
theorem claim_C6_bug :
    Oci.get_instance_info cfg0
      [⟨"r1", [⟨"c1", some [instOfGB "i1" 50]⟩, ⟨"c2", none⟩,
               ⟨"c3", some [instOfGB "i2" 50]⟩]⟩] ⟨0, 0, 0⟩ =
      .error "list_instances raised for compartment c2" ∧
    (Oci.get_object_storage_info cfg0
      [⟨"r1", some "ns1", [⟨"c1", some [⟨"b1", some ⟨"S", "{}", "{}", none, 0⟩⟩]⟩,
                           ⟨"c2", none⟩,
                           ⟨"c3", some [⟨"b3", some ⟨"S", "{}", "{}", none, 0⟩⟩]⟩]⟩]
      ⟨0, 0, 0⟩).scopes.length = 2 := by
  constructor
  · rfl
  · simp only [Oci.get_object_storage_info, Oci.osRegionLoop, Oci.osCompLoop, Oci.osInitRun,
      osBucketLoop_eq]
    simp

/-- Claim C7: terminal resources are filtered before aggregation: the
instance fold is unchanged when TERMINATED instances are removed from
its input (so they reach no row, no summary and no total), every
emitted instance row has a non-TERMINATED state, and the OKE cluster
fold is likewise unchanged when DELETED clusters are removed. -/
theorem claim_C7 :
    (∀ (region comp : String) (insts : List RawInstance) (s : Oci.InstanceSummary)
        (acc : List Oci.InstanceInfo) (t : InstTotals),
      Oci.instLoop region comp insts s acc t =
        Oci.instLoop region comp
          (insts.filter fun i => i.lifecycleState ≠ "TERMINATED") s acc t) ∧
    (∀ (region comp : String) (insts : List RawInstance) (t : InstTotals)
        (r : Oci.InstanceInfo),
      r ∈ (Oci.instLoop region comp insts
        (Oci.InstanceSummary.zeroOf region comp) [] t).2.1 →
      r.state ≠ "TERMINATED") ∧
    (∀ (region : String) (cs : List CV.ClusterData) (s : CV.OKEClusterSummary)
        (acc : List CV.OKEClusterInfo) (t : CV.OKETotals) (disk : List String),
      CV.okeClusterLoop region cs s acc t disk =
        CV.okeClusterLoop region
          (cs.filter fun c => c.lifecycleState ≠ "DELETED") s acc t disk) := by
  refine ⟨?_, ?_, ?_⟩
  · intro region comp insts s acc t
    rw [instLoop_eq, instLoop_eq, keptInstances_filter]
  · intro region comp insts t r hr
    rw [instLoop_eq] at hr
    simp only [List.nil_append] at hr
    exact keptInstances_state region comp insts r hr
  · intro region cs s acc t disk
    rw [okeClusterLoop_eq, okeClusterLoop_eq, keptClusters_filter, okeDiskAfter_filter]

/-- Claim C7, witness: in a concrete compartment with one RUNNING and
one TERMINATED instance, the emitted row has a non-TERMINATED state
(stated as an equality with False to keep the statement closed). -/
theorem claim_C7_witness :
    (((Oci.mkInstanceInfo "rw" "cw" (instOfGB "i1" 50)).state = "TERMINATED") = False) ∧
    (Oci.instLoop "rw" "cw" [instOfGB "i1" 50, instTerminated "i2"]
      (Oci.InstanceSummary.zeroOf "rw" "cw") [] ⟨0, 0, 0⟩).2.1.length = 1 := by
  constructor
  · exact eq_false (claim_C7.2.1 "rw" "cw" [instOfGB "i1" 50, instTerminated "i2"] ⟨0, 0, 0⟩
      (Oci.mkInstanceInfo "rw" "cw" (instOfGB "i1" 50))
      (by rw [instLoop_eq]
          simp [Oci.keptInstances, List.filter_cons, instOfGB, instTerminated]))
  · rw [instLoop_eq]
    simp [Oci.keptInstances, List.filter_cons, instOfGB, instTerminated]

/-- Claim C8: init_excel is idempotent in both variants: a successful
initialization leaves a store against which a second invocation is a
no-op, and invoking it on any already-existing workbook returns that
workbook unchanged (no duplicated headers, no erased rows), whatever
the workload string is. -/
theorem claim_C8 :
    (∀ (w : String) (s s2 : Option Workbook),
      Oci.init_excel s w = .ok s2 → Oci.init_excel s2 w = .ok s2) ∧
    (∀ (w : String) (wb : Workbook), Oci.init_excel (some wb) w = .ok (some wb)) ∧
    (∀ (w : String) (s s2 : Option Workbook),
      CV.init_excel s w = .ok s2 → CV.init_excel s2 w = .ok s2) ∧
    (∀ (w : String) (wb : Workbook), CV.init_excel (some wb) w = .ok (some wb)) := by
  refine ⟨?_, fun _ _ => rfl, ?_, fun _ _ => rfl⟩
  · intro w s s2 h
    cases s with
    | some wb =>
      simp only [Oci.init_excel, Except.ok.injEq] at h
      subst h
      rfl
    | none =>
      simp only [Oci.init_excel] at h
      cases hw : Oci.get_sheet_info w with
      | none => rw [hw] at h; cases h
      | some q =>
        rw [hw] at h
        obtain ⟨a, b, c, d⟩ := q
        simp only [Except.ok.injEq] at h
        subst h
        rfl
  · intro w s s2 h
    cases s with
    | some wb =>
      simp only [CV.init_excel, Except.ok.injEq] at h
      subst h
      rfl
    | none =>
      simp only [CV.init_excel] at h
      cases hw : CV.get_sheet_info w with
      | none => rw [hw] at h; cases h
      | some q =>
        rw [hw] at h
        obtain ⟨a, b, c, d⟩ := q
        simp only [Except.ok.injEq] at h
        subst h
        rfl

/-- Claim C8, witness: the idempotence implications instantiated on a
concrete existing workbook, for both variants. -/
theorem claim_C8_witness :
    Oci.init_excel (some ⟨[("Sheet1", [])]⟩) "instances" = .ok (some ⟨[("Sheet1", [])]⟩) ∧
    CV.init_excel (some ⟨[("Sheet1", [])]⟩) "oke_clusters" = .ok (some ⟨[("Sheet1", [])]⟩) := by
  constructor
  · exact claim_C8.1 "instances" (some ⟨[("Sheet1", [])]⟩) (some ⟨[("Sheet1", [])]⟩) rfl
  · exact claim_C8.2.2.1 "oke_clusters" (some ⟨[("Sheet1", [])]⟩) (some ⟨[("Sheet1", [])]⟩) rfl

/-- Claim C9: the kubeconfig credential file of every inventoried
cluster is removed on every path: after one cluster step the file is
never on disk (whatever the kubeconfig-generation, kubectl or parse
outcome was), the whole run only ever shrinks the disk, and after the
run no processed cluster's kubeconfig file remains. -/
theorem claim_C9 :
    (∀ (c : CV.ClusterData) (disk : List String),
      CV.kubecfgFile c.clusterId ∉ CV.processClusterDisk c disk) ∧
    (∀ (cfg : Config) (rds : List CV.OKERegionData) (t0 : CV.OKETotals)
        (disk0 : List String),
      (CV.get_oke_cluster_info cfg rds t0 disk0).disk ⊆ disk0 ∧
      ∀ c ∈ CV.processedClusters rds,
        CV.kubecfgFile c.clusterId ∉ (CV.get_oke_cluster_info cfg rds t0 disk0).disk) := by
  refine ⟨processClusterDisk_not_mem, ?_⟩
  intro cfg rds t0 disk0
  constructor
  · exact okeRegionLoop_disk_subset rds (CV.okeInitRun cfg t0 disk0)
  · intro c hc
    exact okeRegionLoop_not_mem rds (CV.okeInitRun cfg t0 disk0) c hc

/-- Claim C9, witness: a concrete cluster whose kubeconfig generation
succeeds but whose kubectl query fails leaves no kubeconfig file, for a
run over one region; the non-membership facts are stated as equalities
with False to keep the statement closed. -/
theorem claim_C9_witness :
    ((CV.kubecfgFile "cid1" ∈
      CV.processClusterDisk ⟨"cid1", "k1", "v1.29", "ACTIVE", true, none, none⟩ []) = False) ∧
    ((CV.kubecfgFile "cid1" ∈
      (CV.get_oke_cluster_info cfg0
        [⟨"rk", [⟨"ck", some [⟨"cid1", "k1", "v1.29", "ACTIVE", true, none, none⟩]⟩]⟩]
        ⟨0, 0, 0, 0, 0⟩ ["keep.txt"]).disk) = False) ∧
    (("keep.txt" ∈ (["keep.txt"] : List String)) = True) := by
  refine ⟨?_, ?_, ?_⟩
  · exact eq_false (claim_C9.1 ⟨"cid1", "k1", "v1.29", "ACTIVE", true, none, none⟩ [])
  · exact eq_false ((claim_C9.2 cfg0
      [⟨"rk", [⟨"ck", some [⟨"cid1", "k1", "v1.29", "ACTIVE", true, none, none⟩]⟩]⟩]
      ⟨0, 0, 0, 0, 0⟩ ["keep.txt"]).2
      ⟨"cid1", "k1", "v1.29", "ACTIVE", true, none, none⟩
      (by simp [CV.processedClusters]))
  · exact eq_true ((claim_C9.2 cfg0
      [⟨"rk", [⟨"ck", some [⟨"cid1", "k1", "v1.29", "ACTIVE", true, none, none⟩]⟩]⟩]
      ⟨0, 0, 0, 0, 0⟩ ["keep.txt"]).1
      (show "keep.txt" ∈ (CV.get_oke_cluster_info cfg0
        [⟨"rk", [⟨"ck", some [⟨"cid1", "k1", "v1.29", "ACTIVE", true, none, none⟩]⟩]⟩]
        ⟨0, 0, 0, 0, 0⟩ ["keep.txt"]).disk by
        simp [CV.get_oke_cluster_info, CV.okeRegionLoop, CV.okeCompLoop, CV.okeClusterLoop,
          CV.okeInitRun, CV.processClusterDisk, CV.kubecfgFile]))

/-- Claim C10: every modelled enumeration function mutates the config
mapping it was passed: after a run over a non-empty region list the
returned config has its "region" entry set to the last region
processed, and every other entry is unchanged.  Shown for the oci_cs
object-storage run, the CV object-storage run, the CV OKE run, and
(on its success path) the oci_cs instance run. -/
theorem claim_C10 :
    (∀ (cfg : Config) (rds : List Oci.OSRegionData) (t0 : OSTotals) (rl : Oci.OSRegionData),
      rds.getLast? = some rl →
      (Oci.get_object_storage_info cfg rds t0).config "region" = some rl.region ∧
      ∀ k : String, k ≠ "region" →
        (Oci.get_object_storage_info cfg rds t0).config k = cfg k) ∧
    (∀ (cfg : Config) (rds : List Oci.OSRegionData) (t0 : OSTotals) (rl : Oci.OSRegionData),
      rds.getLast? = some rl →
      (CV.get_object_storage_info cfg rds t0).config "region" = some rl.region ∧
      ∀ k : String, k ≠ "region" →
        (CV.get_object_storage_info cfg rds t0).config k = cfg k) ∧
    (∀ (cfg : Config) (rds : List CV.OKERegionData) (t0 : CV.OKETotals) (disk0 : List String)
        (rl : CV.OKERegionData),
      rds.getLast? = some rl →
      (CV.get_oke_cluster_info cfg rds t0 disk0).config "region" = some rl.region ∧
      ∀ k : String, k ≠ "region" →
        (CV.get_oke_cluster_info cfg rds t0 disk0).config k = cfg k) ∧
    (∀ (cfg : Config) (rds : List Oci.InstRegionData) (t0 : InstTotals)
        (out : Oci.InstRun) (rl : Oci.InstRegionData),
      rds.getLast? = some rl →
      Oci.get_instance_info cfg rds t0 = .ok out →
      out.config "region" = some rl.region ∧
      ∀ k : String, k ≠ "region" → out.config k = cfg k) := by
  refine ⟨?_, ?_, ?_, ?_⟩
  · intro cfg rds t0 rl hl
    have h : (Oci.get_object_storage_info cfg rds t0).config =
        cfgSet cfg "region" rl.region :=
      osRegionLoop_config rds (Oci.osInitRun cfg t0) rl hl
    rw [h]
    exact ⟨cfgSet_same cfg "region" rl.region, fun k hk => cfgSet_other cfg _ _ k hk⟩
  · intro cfg rds t0 rl hl
    have h : (CV.get_object_storage_info cfg rds t0).config =
        cfgSet cfg "region" rl.region :=
      cvRegionLoop_config rds (CV.osInitRunCv cfg t0) rl hl
    rw [h]
    exact ⟨cfgSet_same cfg "region" rl.region, fun k hk => cfgSet_other cfg _ _ k hk⟩
  · intro cfg rds t0 disk0 rl hl
    have h : (CV.get_oke_cluster_info cfg rds t0 disk0).config =
        cfgSet cfg "region" rl.region :=
      okeRegionLoop_config rds (CV.okeInitRun cfg t0 disk0) rl hl
    rw [h]
    exact ⟨cfgSet_same cfg "region" rl.region, fun k hk => cfgSet_other cfg _ _ k hk⟩
  · intro cfg rds t0 out rl hl hrun
    have h : out.config = cfgSet cfg "region" rl.region :=
      instRegionLoop_config rds (Oci.instInitRun cfg t0) out rl hl hrun
    rw [h]
    exact ⟨cfgSet_same cfg "region" rl.region, fun k hk => cfgSet_other cfg _ _ k hk⟩

/-- Claim C10, witness: a two-region object-storage run started from a
config holding a tenancy entry ends with config["region"] = "r2" and
the tenancy entry untouched; the instance run on its success path
behaves the same. -/
theorem claim_C10_witness :
    (Oci.get_object_storage_info cfg1
      [⟨"r1", some "ns1", []⟩, ⟨"r2", some "ns2", []⟩] ⟨0, 0, 0⟩).config "region" =
      some "r2" ∧
    (Oci.get_object_storage_info cfg1
      [⟨"r1", some "ns1", []⟩, ⟨"r2", some "ns2", []⟩] ⟨0, 0, 0⟩).config "tenancy" =
      some "ocid1.tenancy.test" ∧
    (Oci.get_instance_info cfg1 [⟨"r1", []⟩, ⟨"r2", []⟩] ⟨0, 0, 0⟩).map
      (fun out => out.config "region") = .ok (some "r2") := by
  have h1 := claim_C10.1 cfg1 [⟨"r1", some "ns1", []⟩, ⟨"r2", some "ns2", []⟩] ⟨0, 0, 0⟩
    ⟨"r2", some "ns2", []⟩ (by simp [List.getLast?])
  refine ⟨h1.1, (h1.2 "tenancy" (by decide)).trans rfl, ?_⟩
  cases hrun : Oci.get_instance_info cfg1 [⟨"r1", []⟩, ⟨"r2", []⟩] ⟨0, 0, 0⟩ with
  | error e =>
    exact absurd hrun (by simp [Oci.get_instance_info, Oci.instRegionLoop, Oci.instCompLoop,
      Oci.instInitRun])
  | ok out =>
    have h4 := (claim_C10.2.2.2 cfg1 [⟨"r1", []⟩, ⟨"r2", []⟩] ⟨0, 0, 0⟩ out
      ⟨"r2", []⟩ (by simp [List.getLast?]) hrun).1
    simp [Except.map, h4]
